import Mathlib

/-!
Verification of the ipumspy microdata decoding core.

This file gives a shallow embedding of the codebook data model
(`src/ipumspy/ddi.py`) and of the fixed-width decode pipeline
(`src/ipumspy/readers.py`) of the ipumspy repository, and proves
properties of that embedding.

Modelling conventions:
* Python `str` is Lean `String`; Python `int` is Lean `Int`.
* Floating point values are modelled by exact rationals: the decode
  pipeline only ever divides parsed integers by powers of ten, so the
  rational model is the intended (precision-loss-free) semantics.
* A pandas cell is a `Cell` (null / string / integer / float); missing
  values (`pd.NA` on nullable dtypes, `NaN` on `np.float64`) are both
  modelled by `Cell.null`.
* Fallible Python code is modelled in the `Except PyError` monad; the
  distinct `PyError` constructors model the distinct exception
  classes (and, for `valueErrorRectype`, one specific `ValueError`
  raise site) of the source.
-/

set_option maxHeartbeats 1000000

namespace Ipumspy

/-- Exceptions raised by the modelled Python code.  `valueErrorRectype` is the
specific `ValueError` raised by `read_hierarchical_microdata` when an explicit
subset omits the RECTYPE column; `valueError` models every other `ValueError`
(for example an `int()` or `astype` parse failure). -/
inductive PyError where
  | typeError
  | valueError
  | valueErrorRectype
  | notImplementedError
  | indexError
  | keyError
  | attributeError
  | stopIteration
  deriving DecidableEq, Repr

/-- Resolved pandas column dtypes used by the pipeline: nullable integer
(`pd.Int64Dtype()`), numpy float (`np.float64`), nullable float
(`pd.Float64Dtype()`), and nullable string (`pd.StringDtype()`). -/
inductive Dtype where
  | int64N
  | float64
  | float64N
  | stringD
  deriving DecidableEq, Repr

/-- One cell of a pandas column.  `null` models `pd.NA` and `NaN` alike. -/
inductive Cell where
  | null
  | str (s : String)
  | int (n : Int)
  | float (q : ℚ)
  deriving DecidableEq, Repr

/-- One column of a pandas data frame: its name, its current dtype and its
cells in row order. -/
structure Col where
  name : String
  dtype : Dtype
  cells : List Cell
  deriving DecidableEq, Repr

/-- A pandas data frame, column-major.  Column order is the order of the
codebook's data description. -/
abbrev Frame := List Col

/-- Decidable equality on `Except` results, so concrete runs of the modelled
readers can be checked by `decide`. -/
instance {ε α : Type} [DecidableEq ε] [DecidableEq α] :
    DecidableEq (Except ε α) := fun x y =>
  match x, y with
  | .error a, .error b =>
    if h : a = b then .isTrue (by rw [h])
    else .isFalse (fun hh => h (Except.error.inj hh))
  | .ok a, .ok b =>
    if h : a = b then .isTrue (by rw [h])
    else .isFalse (fun hh => h (Except.ok.inj hh))
  | .error _, .ok _ => .isFalse (fun hh => Except.noConfusion hh)
  | .ok _, .error _ => .isFalse (fun hh => Except.noConfusion hh)

/-- A dtype mapping (a Python dict from column name to dtype); lookups find
the first binding, and every dict built by the source has distinct keys. -/
abbrev DtypeMap := List (String × Dtype)

/-- First-binding lookup in an association list, modelling Python dict
indexing for the dicts (built with distinct keys) used by the source. -/
def alookup (m : DtypeMap) (k : String) : Option Dtype :=
  (m.find? (fun kv => kv.1 == k)).map (·.2)

/-- Replace the value bound to `k` (first binding), modelling Python
`d[k] = v` on an existing key. -/
def aupdate (m : DtypeMap) (k : String) (v : Dtype) : DtypeMap :=
  m.map (fun kv => if kv.1 == k then (kv.1, v) else kv)

/-- Python `str.strip()` (restricted to ASCII whitespace, which is all the
fixed-width reader ever strips). -/
def pyStrip (s : String) : String :=
  String.mk (((s.toList.dropWhile Char.isWhitespace).reverse.dropWhile
    Char.isWhitespace).reverse)

/-- Python `str.upper()` (character-wise upper-casing; IPUMS variable ids
are ASCII). -/
def pyUpper (s : String) : String :=
  String.mk (s.toList.map Char.toUpper)

/-- Value of a nonempty list of decimal digits, `none` if any character is not
a digit or the list is empty. -/
def digitsToNat : List Char → Option Nat
  | [] => none
  | cs => if cs.all Char.isDigit then
      some (cs.foldl (fun a c => a * 10 + (c.toNat - 48)) 0)
    else none

/-- Python `int(s)` on an already-stripped string: an optional sign followed
by decimal digits.  (Python also accepts `_` digit separators and surrounding
whitespace; neither occurs in fixed-width fields, which are stripped by the
reader.) -/
def pyIntParseChars : List Char → Option Int
  | [] => none
  | c :: rest =>
    if c = '-' then
      match digitsToNat rest with
      | some n => some (-(n : Int))
      | none => none
    else if c = '+' then
      match digitsToNat rest with
      | some n => some ((n : Int))
      | none => none
    else
      match digitsToNat (c :: rest) with
      | some n => some ((n : Int))
      | none => none

def pyIntParse (s : String) : Option Int :=
  pyIntParseChars s.toList

/-- Digit value of a possibly-empty digit list (empty reads as 0), used for
the integer and fractional parts of a decimal literal; `none` if a non-digit
occurs. -/
def digitsToNatD : List Char → Option Nat
  | cs => if cs.all Char.isDigit then
      some (cs.foldl (fun a c => a * 10 + (c.toNat - 48)) 0)
    else none

/-- Decimal core of a Python float literal: digits, optionally with one
decimal point (`"12"`, `"12.5"`, `"12."`, `".5"`).  Exponent notation and
`inf`/`nan` are accepted by Python but never occur in the decoded data. -/
def decimalCore (cs : List Char) : Option ℚ :=
  match cs.dropWhile (· ≠ '.') with
  | [] =>
    match cs with
    | [] => none
    | _ =>
      match digitsToNat cs with
      | some n => some ((n : ℚ))
      | none => none
  | _ :: frac =>
    let intPart := cs.takeWhile (· ≠ '.')
    if intPart.isEmpty ∧ frac.isEmpty then none
    else
      match digitsToNatD intPart, digitsToNatD frac with
      | some a, some b => some ((a : ℚ) + (b : ℚ) / (10 : ℚ) ^ frac.length)
      | _, _ => none

/-- Python `float(s)` / `pd.to_numeric` on an already-stripped string,
restricted to plain decimal literals. -/
def pyFloatParseChars : List Char → Option ℚ
  | [] => none
  | c :: rest =>
    if c = '-' then (decimalCore rest).map (fun q => -q)
    else if c = '+' then decimalCore rest
    else decimalCore (c :: rest)

def pyFloatParse (s : String) : Option ℚ :=
  pyFloatParseChars s.toList

/-- Truncation toward zero, the behaviour of numpy/pandas `astype(int)` on
floats (C cast semantics, same as Python `int(float)`). -/
def ratTrunc (q : ℚ) : Int :=
  Int.tdiv q.num (q.den : Int)

/-- Exponent of the smallest power of ten the denominator divides (bounded
search; every float produced by the pipeline is an integer divided by a power
of ten). -/
def pow10Exp (den : Nat) : Option Nat :=
  (List.range 31).find? (fun k => den ∣ 10 ^ k)

/-- String rendering of a float, modelling Python `str()` on the exact
decimal floats produced by the pipeline.  Only reachable when a decimal-shift
column is re-cast to string dtype, which no theorem below exercises. -/
def ratRepr (q : ℚ) : String :=
  match pow10Exp q.den with
  | some 0 => toString q.num ++ ".0"
  | some k =>
    let scaled : Int := q.num * ((10 ^ k) / q.den : Nat)
    let sign := if scaled < 0 then "-" else ""
    let digits := toString scaled.natAbs
    let padded :=
      if digits.length ≤ k then
        String.mk (List.replicate (k + 1 - digits.length) '0') ++ digits
      else digits
    sign ++ String.mk (padded.toList.take (padded.length - k)) ++ "." ++
      String.mk (padded.toList.drop (padded.length - k))
  | none => toString q.num ++ "/" ++ toString q.den

end Ipumspy

namespace Ipumspy

/-- A value stored in a variable's code/label dictionary: an integer for
numeric variables, a (possibly absent) string otherwise. -/
inductive CodeVal where
  | int (n : Int)
  | str (s : Option String)
  deriving DecidableEq, Repr

/-- `ipumspy.ddi.VariableDescription`.  Fields and their order follow the
dataclass in `src/ipumspy/ddi.py`; `label`, `description` and `concept` are
element texts and may be `None` at runtime, hence `Option String`.

The `rectype` field is modelled from the spec: the snapshot of
`src/ipumspy/ddi.py` does not declare it, but `readers.py` and the test suite
read `desc.rectype` (a string attribute, empty when the variable element
carries no record-type attribute), so the field is reconstructed here from
the spec's data model ("record_type: space-delimited set ... empty/absent =
applies to all record types") and the tests' expectations. -/
structure VariableDescription where
  id : String
  name : String
  codes : List (Option String × CodeVal)
  start : Int
  end_ : Int
  label : Option String
  description : Option String
  concept : Option String
  vartype : String
  shift : Option Int
  rectype : String
  deriving DecidableEq, Repr

/-- `VariableDescription.pandas_type`: numeric variables with no decimal
shift resolve to nullable integer, shifted numeric variables to numpy float,
and everything else to nullable string. -/
def VariableDescription.pandas_type (v : VariableDescription) : Dtype :=
  if v.vartype = "numeric" then
    if v.shift = none ∨ v.shift = some 0 then Dtype.int64N
    else Dtype.float64
  else Dtype.stringD

/-- `ipumspy.ddi.FileDescription` (text fields may be `None` at runtime). -/
structure FileDescription where
  filename : Option String
  description : Option String
  structure_ : String
  encoding : String
  format : Option String
  place : Option String
  deriving DecidableEq, Repr

/-- `ipumspy.ddi.Codebook`. -/
structure Codebook where
  file_description : FileDescription
  data_description : List VariableDescription
  samples_description : List String
  ipums_citation : Option String
  ipums_conditions : Option String
  ipums_collection : String
  ipums_doi : Option String
  deriving DecidableEq, Repr

/-- An XML element as seen through `xml.etree.ElementTree`: tag, attributes,
optional text, children in document order.  Tags are stored with the DDI
namespace already resolved (the source expands every lookup against the one
namespace extracted from the root tag). -/
structure XmlElt where
  tag : String
  attrs : List (String × String)
  text : Option String
  children : List XmlElt
  deriving Repr

/-- All elements reached from `es` by following the tag path, in document
order (`ElementTree.findall` on a `./a/b` path). -/
def findallPath (es : List XmlElt) : List String → List XmlElt
  | [] => es
  | t :: rest =>
    findallPath ((es.map (fun e => e.children.filter (fun c => c.tag == t))).flatten) rest

/-- `elt.findall("./a/b/...")`. -/
def XmlElt.findall (e : XmlElt) (path : List String) : List XmlElt :=
  findallPath [e] path

/-- `elt.find("./a/b/...")`: first match in document order, `None` if absent. -/
def XmlElt.find? (e : XmlElt) (path : List String) : Option XmlElt :=
  (e.findall path).head?

/-- `found.text` where `found` may be `None`: accessing `.text` on `None`
raises `AttributeError`; otherwise the element's optional text is returned. -/
def getText (e : Option XmlElt) : Except PyError (Option String) :=
  match e with
  | none => .error .attributeError
  | some el => .ok el.text

/-- `found.attrib[k]` where `found` may be `None`: `AttributeError` on `None`,
`KeyError` on a missing attribute. -/
def getAttr (e : Option XmlElt) (k : String) : Except PyError String :=
  match e with
  | none => .error .attributeError
  | some el =>
    match (el.attrs.find? (fun kv => kv.1 == k)).map (·.2) with
    | none => .error .keyError
    | some v => .ok v

/-- `elt.attrib[k]` on an element known to exist. -/
def XmlElt.attr (e : XmlElt) (k : String) : Except PyError String :=
  match (e.attrs.find? (fun kv => kv.1 == k)).map (·.2) with
  | none => .error .keyError
  | some v => .ok v

/-- `elt.attrib.get(k)` / `elt.attrib.get(k, default)` lookup. -/
def XmlElt.attrGet (e : XmlElt) (k : String) : Option String :=
  (e.attrs.find? (fun kv => kv.1 == k)).map (·.2)

/-- Python `int(s)` raising `ValueError` on an unparsable string (`int` also
strips surrounding whitespace before parsing). -/
def pyInt (s : String) : Except PyError Int :=
  match pyIntParse (pyStrip s) with
  | some n => .ok n
  | none => .error .valueError

/-- Python `int(x)` applied to an optional string (`int(None)` raises
`TypeError`). -/
def pyIntOfOptText (t : Option String) : Except PyError Int :=
  match t with
  | none => .error .typeError
  | some s => pyInt s

/-- Python dict assignment `d[k] = v`: replace the first binding of `k` or
append a new one. -/
def dictInsert (m : List (Option String × CodeVal)) (k : Option String)
    (v : CodeVal) : List (Option String × CodeVal) :=
  if m.any (fun kv => kv.1 == k) then
    m.map (fun kv => if kv.1 == k then (kv.1, v) else kv)
  else m ++ [(k, v)]

/-- One iteration of the `catgry` loop of `VariableDescription.read`: read the
label and value texts and store the (numeric-coerced when the variable is
numeric) value under the label. -/
def readCatgry (vartype : String) (acc : List (Option String × CodeVal))
    (cat : XmlElt) : Except PyError (List (Option String × CodeVal)) := do
  let label ← getText (cat.find? ["labl"])
  let value ← getText (cat.find? ["catValu"])
  if vartype = "numeric" then
    let n ← pyIntOfOptText value
    pure (dictInsert acc label (CodeVal.int n))
  else
    pure (dictInsert acc label (CodeVal.str value))

/-- `ipumspy.ddi.VariableDescription.read`, in source evaluation order:
variable format type, the code/label dictionary, then the constructor
arguments (id, name, codes, start, end, label, description, concept, vartype,
shift).  `StartPos`/`EndPos` are 1-based inclusive column positions; the
source subtracts 1 from the start only, producing a 0-based half-open range.
The trailing `rectype` read is modelled from the spec (see
`VariableDescription`): the attribute's string, defaulting to the empty
string when absent. -/
def VariableDescription.read (elt : XmlElt) :
    Except PyError VariableDescription := do
  let vartype ← getAttr (elt.find? ["varFormat"]) "type"
  let codes ← (elt.findall ["catgry"]).foldlM (readCatgry vartype) []
  let id ← elt.attr "ID"
  let name ← elt.attr "name"
  let startS ← getAttr (elt.find? ["location"]) "StartPos"
  let start ← pyInt startS
  let endS ← getAttr (elt.find? ["location"]) "EndPos"
  let endv ← pyInt endS
  let label ← getText (elt.find? ["labl"])
  let description ← getText (elt.find? ["txt"])
  let concept ← getText (elt.find? ["concept"])
  let shift ← match elt.attrGet "dcml" with
    | some s => do pure (some (← pyInt s))
    | none => pure none
  pure { id := id, name := name, codes := codes, start := start - 1,
         end_ := endv, label := label, description := description,
         concept := concept, vartype := vartype, shift := shift,
         rectype := (elt.attrGet "rectype").getD "" }

/-- `ipumspy.ddi.FileDescription.read`. -/
def FileDescription.read (elt : XmlElt) : Except PyError FileDescription := do
  let filename ← getText (elt.find? ["fileName"])
  let description ← getText (elt.find? ["fileCont"])
  let structure_ ← getAttr (elt.find? ["fileStrc"]) "type"
  let encoding ← match elt.find? ["fileType"] with
    | none => Except.error PyError.attributeError
    | some e => Except.ok (String.toLower ((e.attrGet "charset").getD "iso-8859-1"))
  let format ← getText (elt.find? ["format"])
  let place ← getText (elt.find? ["filePlac"])
  pure { filename := filename, description := description,
         structure_ := structure_, encoding := encoding, format := format,
         place := place }

/-- One `notes` element of the sample-description loop:
`item.text.strip().split("\n")[0]` (`AttributeError` if the text is `None`;
`split` never returns an empty list, so the `[0]` index always succeeds). -/
def sampleNameRow (item : XmlElt) : Except PyError String :=
  match item.text with
  | none => .error .attributeError
  | some t => .ok ((((pyStrip t).splitOn "\n").headD ""))

/-- `desc.split(":")[-1].strip()` applied to one collected sample row. -/
def sampleOfDesc (d : String) : String :=
  pyStrip (((d.splitOn ":").getLastD ""))

/-- `ipumspy.ddi.Codebook.read`: the file-description blocks are counted
first and anything other than exactly one raises `NotImplementedError`
before any other field of the codebook is touched; then the study metadata
is read, and finally the file description and every variable description are
parsed, in source evaluation order. -/
def Codebook.read (elt : XmlElt) : Except PyError Codebook := do
  let fileTxts := elt.findall ["fileDscr", "fileTxt"]
  if fileTxts.length ≠ 1 then
    throw PyError.notImplementedError
  else do
    let sampleRows ← (elt.findall ["stdyDscr", "stdyInfo", "notes"]).mapM sampleNameRow
    let ipumsSamples := sampleRows.map sampleOfDesc
    let ipumsCitation ← getText (elt.find? ["stdyDscr", "dataAccs", "useStmt", "citReq"])
    let ipumsConditions ← getText (elt.find? ["stdyDscr", "dataAccs", "useStmt", "conditions"])
    let ipumsCollection ← getAttr (elt.find? ["stdyDscr", "citation", "serStmt", "serName"]) "abbr"
    let ipumsDoi ← getText (elt.find? ["stdyDscr", "citation", "serStmt", "serInfo"])
    let fd ← FileDescription.read (fileTxts.headD ⟨"", [], none, []⟩)
    let dd ← (elt.findall ["dataDscr", "var"]).mapM VariableDescription.read
    pure { file_description := fd, data_description := dd,
           samples_description := ipumsSamples, ipums_citation := ipumsCitation,
           ipums_conditions := ipumsConditions, ipums_collection := ipumsCollection,
           ipums_doi := ipumsDoi }

/-- `ipumspy.ddi.Codebook.get_variable_info`: the first variable description
whose id equals the upper-cased name, `ValueError` (from the caught
`IndexError`) when there is none. -/
def Codebook.get_variable_info (cb : Codebook) (name : String) :
    Except PyError VariableDescription :=
  match (cb.data_description.filter (fun vd => vd.id == pyUpper name)).head? with
  | some vd => .ok vd
  | none => .error .valueError

end Ipumspy

namespace Ipumspy

/-- The raw text of one fixed-width field: Python `line[start:end]` followed
by the whitespace strip that `pandas.read_fwf` applies to every extracted
field.  (`start`/`end` come from the parsed codebook and are nonnegative with
`start ≤ end` for every real location element.) -/
def fieldStr (line : String) (v : VariableDescription) : String :=
  pyStrip (String.mk ((line.toList.drop v.start.toNat).take
    (v.end_.toNat - v.start.toNat)))

/-- A stripped field as a string-dtype cell: the empty field is a missing
value (`pandas` NA), anything else is kept verbatim. -/
def strCellOf (s : String) : Cell :=
  if s = "" then Cell.null else Cell.str s

/-- `pd.read_fwf(... colspecs, names, dtype=str ...)`: every requested column
is materialised as a string column of stripped fields, one row per line. -/
def readFwfStr (descs : List VariableDescription) (lines : List String) :
    Frame :=
  descs.map (fun v =>
    { name := v.name, dtype := Dtype.stringD,
      cells := lines.map (fun l => strCellOf (fieldStr l v)) })

/-- Element-wise `column.astype(int)` (the plain numpy int cast used inside
`_fix_decimal_expansion`): a missing value raises `TypeError`, an unparsable
string raises `ValueError`, floats truncate; the first offending element in
row order decides the exception. -/
def intListOfCells : List Cell → Except PyError (List Int)
  | [] => .ok []
  | c :: cs => do
    let n ← (match c with
      | Cell.null => Except.error PyError.typeError
      | Cell.str s =>
        match pyIntParse s with
        | some n => Except.ok n
        | none => Except.error PyError.valueError
      | Cell.int n => Except.ok n
      | Cell.float q => Except.ok (ratTrunc q))
    let ns ← intListOfCells cs
    pure (n :: ns)

/-- One cell of the fallback path of `_fix_decimal_expansion`:
`pd.to_numeric(col, errors="coerce").fillna(0).astype(int) / 10**shift`.
Unparsable strings and missing values coerce to `NaN`, are filled with 0,
truncated to int and divided by the shift. -/
def coerceDecimalCell (k : Nat) : Cell → Cell
  | Cell.null => Cell.float 0
  | Cell.str s =>
    match pyFloatParse s with
    | some q => Cell.float ((ratTrunc q : ℚ) / (10 : ℚ) ^ k)
    | none => Cell.float 0
  | Cell.int n => Cell.float ((n : ℚ) / (10 : ℚ) ^ k)
  | Cell.float q => Cell.float ((ratTrunc q : ℚ) / (10 : ℚ) ^ k)

/-- `df[name] = df[name].astype(int) / 10**shift` with the `except TypeError`
fallback of `_fix_decimal_expansion`: only a `TypeError` (a missing value hit
by the int cast) selects the coercing fallback; a `ValueError` (garbage in
the field) propagates and fails the whole batch. -/
def fixDecimalCol (k : Nat) (cells : List Cell) : Except PyError (List Cell) :=
  match intListOfCells cells with
  | .ok ns => .ok (ns.map (fun n : Int => Cell.float ((n : ℚ) / (10 : ℚ) ^ k)))
  | .error PyError.typeError => .ok (cells.map (coerceDecimalCell k))
  | .error e => .error e

/-- Replace the cells (and record the resulting numpy float dtype) of the
named column, modelling the in-place `df[name] = ...` assignment. -/
def setColFloat (f : Frame) (name : String) (cells : List Cell) : Frame :=
  f.map (fun c => if c.name == name then
    { name := c.name, dtype := Dtype.float64, cells := cells } else c)

/-- One iteration of the `_fix_decimal_expansion` loop: if the description
has a positive decimal shift, replace its column by the cast-and-divided
cells; otherwise leave the frame unchanged. -/
def fdeStep (acc : Frame) (v : VariableDescription) : Except PyError Frame :=
  match v.shift with
  | some k =>
    if 0 < k then
      match (acc.find? (fun c => c.name == v.name)).map Col.cells with
      | some cells => do
        let cells' ← fixDecimalCol k.toNat cells
        pure (setColFloat acc v.name cells')
      | none => pure acc
    else pure acc
  | none => pure acc

/-- `_fix_decimal_expansion` for fixed-width files: every described column
with a positive decimal shift is cast to int (with the `TypeError` fallback)
and divided by `10**shift`, in data-description order. -/
def fix_decimal_expansion (descs : List VariableDescription) (f : Frame) :
    Except PyError Frame :=
  descs.foldlM fdeStep f

/-- Success of `column.astype(pd.Int64Dtype())` on a string column: missing
values are representable, every string must parse as an integer (the source
catches both `TypeError` and `ValueError` from this cast). -/
def int64CastOk (cells : List Cell) : Bool :=
  cells.all (fun c =>
    match c with
    | Cell.null => true
    | Cell.str s => (pyIntParse s).isSome
    | Cell.int _ => true
    | Cell.float _ => true)

/-- One column of the `_fix_float_dtypes` loop: if the column's entry in
the dtype dict is the nullable integer dtype and the nullable-integer cast
would raise, downgrade the entry to nullable float. -/
def ffdStep (dt : DtypeMap) (c : Col) : DtypeMap :=
  if alookup dt c.name = some Dtype.int64N then
    if int64CastOk c.cells then dt
    else aupdate dt c.name Dtype.float64N
  else dt

/-- `_fix_float_dtypes`: for every column of the frame whose entry in the
dtype dict is the nullable integer dtype, try the nullable-integer cast and
downgrade the entry to nullable float when the cast raises.  The source also
assigns the successfully cast column in place; the subsequent
`.astype(dtype)` call performs the same cast, so the dict is the only state
modelled.  The returned dict is the same (mutated) dict object as the
argument. -/
def fix_float_dtypes (dtype : DtypeMap) (f : Frame) : DtypeMap :=
  f.foldl ffdStep dtype

/-- Element-wise `astype` to a target dtype.  String targets render every
value; the nullable integer target parses strings with `int()` semantics and
truncates floats; float targets parse strings as decimal numerals.  Missing
values stay missing under every target (`NaN` for the numpy float target is
also modelled by `Cell.null`). -/
def astypeCell (d : Dtype) (c : Cell) : Except PyError Cell :=
  match d, c with
  | _, Cell.null => .ok Cell.null
  | Dtype.stringD, Cell.str s => .ok (Cell.str s)
  | Dtype.stringD, Cell.int n => .ok (Cell.str (toString n))
  | Dtype.stringD, Cell.float q => .ok (Cell.str (ratRepr q))
  | Dtype.int64N, Cell.str s =>
    (match pyIntParse s with
     | some n => .ok (Cell.int n)
     | none => .error PyError.valueError)
  | Dtype.int64N, Cell.int n => .ok (Cell.int n)
  | Dtype.int64N, Cell.float q => .ok (Cell.int (ratTrunc q))
  | _, Cell.str s =>
    (match pyFloatParse s with
     | some q => .ok (Cell.float q)
     | none => .error PyError.valueError)
  | _, Cell.int n => .ok (Cell.float (n : ℚ))
  | _, Cell.float q => .ok (Cell.float q)

/-- `column.astype(target)`. -/
def astypeCol (d : Dtype) (c : Col) : Except PyError Col := do
  let cells ← c.cells.mapM (astypeCell d)
  pure { name := c.name, dtype := d, cells := cells }

/-- `df.astype(dtype_dict)`: every column named in the dict is cast to its
target dtype; columns absent from the dict are left unchanged. -/
def astypeFrame (dtype : DtypeMap) (f : Frame) : Except PyError Frame :=
  f.mapM (fun c =>
    match alookup dtype c.name with
    | some d => astypeCol d c
    | none => pure c)

/-- The generator body of `_read_microdata` for a fixed-width file: the
pandas reader yields one frame per chunk (`[lines]` for a single-shot read),
and each frame flows through `_fix_decimal_expansion(df).astype(
_fix_float_dtypes(dtype, df))`.  The dtype dict is shared, so a downgrade by
`_fix_float_dtypes` in one chunk is visible to every later chunk. -/
def readFrames (descs : List VariableDescription) (dtype : DtypeMap) :
    List (List String) → Except PyError (List Frame)
  | [] => .ok []
  | chunk :: rest =>
    fix_decimal_expansion descs (readFwfStr descs chunk) >>= fun df2 =>
    astypeFrame (fix_float_dtypes dtype df2) df2 >>= fun f =>
    readFrames descs (fix_float_dtypes dtype df2) rest >>= fun fs =>
    pure (f :: fs)

/-- Column subsetting of `_read_microdata`: keep the descriptions whose name
is in the subset, in data-description order. -/
def selectDescs (dd : List VariableDescription) (subset : Option (List String)) :
    List VariableDescription :=
  match subset with
  | some l => dd.filter (fun v => l.contains v.name)
  | none => dd

/-- The dtype dict `_read_microdata` builds when none is supplied: every
selected column's `pandas_type`. -/
def defaultDtype (descs : List VariableDescription) : DtypeMap :=
  descs.map (fun v => (v.name, v.pandas_type))

/-- `_read_microdata` on a fixed-width source, chunked: select the columns,
resolve the dtype dict, and run the shared-dict generator over the chunks.
`chunks` is the row partition induced by the caller's `chunksize` (a single
all-rows chunk when no chunking is requested). -/
def readMicrodataIter (dd : List VariableDescription)
    (subset : Option (List String)) (dtypeArg : Option DtypeMap)
    (chunks : List (List String)) : Except PyError (List Frame) :=
  let descs := selectDescs dd subset
  readFrames descs (dtypeArg.getD (defaultDtype descs)) chunks

/-- `ipumspy.readers.read_microdata`: refuse hierarchical codebooks, then
return the single frame of the non-iterator read (`next` on the generator;
the generator always yields exactly one frame here, so the `StopIteration`
arm is unreachable). -/
def read_microdata (ddi : Codebook) (subset : Option (List String))
    (dtypeArg : Option DtypeMap) (lines : List String) :
    Except PyError Frame :=
  if ddi.file_description.structure_ = "hierarchical" then
    .error .notImplementedError
  else
    match readMicrodataIter ddi.data_description subset dtypeArg [lines] with
    | .ok (f :: _) => .ok f
    | .ok [] => .error .stopIteration
    | .error e => .error e

/-- `ipumspy.readers.read_microdata_chunked`: the chunked generator on the
partition induced by the chunk size (no structure check is performed). -/
def read_microdata_chunked (ddi : Codebook) (subset : Option (List String))
    (dtypeArg : Option DtypeMap) (chunks : List (List String)) :
    Except PyError (List Frame) :=
  readMicrodataIter ddi.data_description subset dtypeArg chunks

/-- Column-wise concatenation of two frames sharing a schema
(`pd.concat`). -/
def concat2 (f g : Frame) : Frame :=
  f.zipWith (fun a b =>
    { name := a.name, dtype := a.dtype, cells := a.cells ++ b.cells }) g

/-- `pd.concat` of a nonempty list of frames in order. -/
def concatFrames : List Frame → Frame
  | [] => []
  | f :: rest => rest.foldl concat2 f

end Ipumspy

namespace Ipumspy

/-- Split a character list at every single space, keeping empty pieces
(Python `s.split(" ")` semantics, equivalent to `str.split(" ")` /
`String.splitOn " "` for the single-space separator). -/
def splitSpaceChars : List Char → List (List Char)
  | [] => [[]]
  | c :: cs =>
    if c = ' ' then [] :: splitSpaceChars cs
    else
      match splitSpaceChars cs with
      | g :: gs => (c :: g) :: gs
      | [] => [[c]]

/-- Python `s.split(" ")`. -/
def pySplitSpace (s : String) : List String :=
  (splitSpaceChars s.toList).map String.mk

/-- Code-point lexicographic strict order on character lists (Python string
comparison). -/
def strLtChars : List Char → List Char → Bool
  | [], [] => false
  | [], _ :: _ => true
  | _ :: _, [] => false
  | a :: as, b :: bs =>
    if a.toNat < b.toNat then true
    else if b.toNat < a.toNat then false
    else strLtChars as bs

/-- Python `a <= b` on strings. -/
def pyStrLe (a b : String) : Bool :=
  ! strLtChars b.toList a.toList

/-- Insert into an ascending list (stable). -/
def insertLe (a : String) : List String → List String
  | [] => [a]
  | b :: bs => if pyStrLe a b then a :: b :: bs else b :: insertLe a bs

/-- Python `sorted` on a list of strings (ascending lexicographic
code-point order, via insertion sort). -/
def pySorted : List String → List String
  | [] => []
  | a :: rest => insertLe a (pySorted rest)

/-- `ipumspy.readers._get_common_vars`: locate the RECTYPE description
(`IndexError` if the subset has none), split its record-type string on single
spaces, and keep every variable whose sorted token list equals the sorted
full token list. -/
def get_common_vars (dataDescription : List VariableDescription) :
    Except PyError (List String) :=
  match dataDescription.filter (fun v => v.name == "RECTYPE") with
  | [] => .error .indexError
  | rd :: _ =>
    let allRectypes := pySplitSpace rd.rectype
    .ok ((dataDescription.filter (fun v =>
      pySorted (pySplitSpace v.rectype) == pySorted allRectypes)).map (·.name))

/-- `ipumspy.readers._get_rectype_vars`: the common variables followed by the
variables whose record-type string equals this record type exactly. -/
def get_rectype_vars (rectype : String) (commonVars : List String)
    (dataDescription : List VariableDescription) : List String :=
  commonVars ++ (dataDescription.filter (fun v => v.rectype == rectype)).map (·.name)

/-- `df[df["RECTYPE"] == rectype]`: keep the rows whose RECTYPE cell equals
the tag (`KeyError` if the frame has no RECTYPE column; a missing RECTYPE
cell compares unequal, as pandas treats NA comparisons as False in the
mask). -/
def filterByRectype (f : Frame) (rectype : String) : Except PyError Frame :=
  match (f.find? (fun c => c.name == "RECTYPE")).map Col.cells with
  | none => .error .keyError
  | some rcCells =>
    let mask := rcCells.map (fun c => c == Cell.str rectype)
    .ok (f.map (fun c =>
      { name := c.name, dtype := c.dtype,
        cells := ((mask.zip c.cells).filter (·.1)).map (·.2) }))

/-- The dict `{desc.name: desc.pandas_type for desc in dd if desc.name in names}`. -/
def pandasMapFor (dd : List VariableDescription) (names : List String) :
    DtypeMap :=
  (dd.filter (fun v => names.contains v.name)).map (fun v => (v.name, v.pandas_type))

/-- Replace the named column's dtype and cells in place (`df[col] = ...`). -/
def setCol (f : Frame) (name : String) (d : Dtype) (cells : List Cell) :
    Frame :=
  f.map (fun c => if c.name == name then
    { name := c.name, dtype := d, cells := cells } else c)

/-- The per-record-type loop of `read_hierarchical_microdata` that builds
`df_dict`: skip record types with no variables of their own; otherwise read
the record type's columns as strings, keep only that record type's rows, and
cast the surviving rows to their (float-fixed) dtypes.  (The source's
in-place column conversion inside `_fix_float_dtypes` is reproduced by the
explicit `astype` that follows it.) -/
def buildDfDict (ddi : Codebook) (dataDescription : List VariableDescription)
    (dtypeArg : Option DtypeMap) (lines : List String)
    (commonVars : List String) (allRectypes : List String) :
    Except PyError (List (String × Frame)) :=
  allRectypes.foldlM (fun acc rt => do
    let rtVars := get_rectype_vars rt commonVars dataDescription
    if rtVars = commonVars then pure acc
    else do
      let dtypeStr : DtypeMap := rtVars.map (fun v => (v, Dtype.stringD))
      let fs ← readMicrodataIter ddi.data_description (some rtVars) (some dtypeStr) [lines]
      let rdf := concatFrames fs
      let filtered ← filterByRectype rdf rt
      let dtypeRt := match dtypeArg with
        | none => fix_float_dtypes (pandasMapFor dataDescription rtVars) filtered
        | some dm => dm.filter (fun kv => rtVars.contains kv.1)
      let af ← astypeFrame dtypeRt filtered
      pure (acc ++ [(rt, af)])) []

/-- Nullify one non-owning column for one record type in unified mode:
`np.where(df["RECTYPE"] == rectype, null, df[col])` with the type-appropriate
null (`pd.NA` for nullable integers, the empty string for strings, `NaN` for
floats) followed by the dtype-restoring `astype`.  The dtype dispatch mirrors
the source's `if/elif` chain; the trailing `TypeError` arm of the source is
unreachable here because `Dtype` has exactly the four dtypes the chain
accepts. -/
def nullifyCol (df : Frame) (rectype : String) (col : String)
    (dtypeRt : DtypeMap) : Except PyError Frame := do
  let t ← match alookup dtypeRt col with
    | some t => pure t
    | none => throw PyError.keyError
  let rcCells ← match (df.find? (fun c => c.name == "RECTYPE")).map Col.cells with
    | some cs => pure cs
    | none => throw PyError.keyError
  let curCells ← match (df.find? (fun c => c.name == col)).map Col.cells with
    | some cs => pure cs
    | none => throw PyError.keyError
  match t with
  | Dtype.int64N =>
    let cells1 := List.zipWith (fun r c =>
      if r == Cell.str rectype then Cell.null else c) rcCells curCells
    let dt1 := fix_float_dtypes [(col, Dtype.int64N)]
      [{ name := col, dtype := Dtype.stringD, cells := cells1 }]
    let target ← match alookup dt1 col with
      | some t' => pure t'
      | none => throw PyError.keyError
    let cells2 ← cells1.mapM (astypeCell target)
    pure (setCol df col target cells2)
  | Dtype.stringD =>
    let cells1 := List.zipWith (fun r c =>
      if r == Cell.str rectype then Cell.str "" else c) rcCells curCells
    let cells2 ← cells1.mapM (astypeCell Dtype.stringD)
    pure (setCol df col Dtype.stringD cells2)
  | t =>
    let cells1 := List.zipWith (fun r c =>
      if r == Cell.str rectype then Cell.null else c) rcCells curCells
    let cells2 ← cells1.mapM (astypeCell t)
    pure (setCol df col t cells2)

/-- The unified-mode nulling loop: for every record type in `df_dict` order,
collect the columns owned by the other record types (excluding common
columns) and nullify them on this record type's rows. -/
def hierUnifiedNulling (df : Frame) (dfDict : List (String × Frame))
    (dataDescription : List VariableDescription) (dtypeArg : Option DtypeMap)
    (commonVars : List String) : Except PyError Frame :=
  dfDict.foldlM (fun df p => do
    let rectype := p.1
    let nonRtCols := (dfDict.map (fun q =>
      if q.1 ≠ rectype then
        (q.2.map Col.name).filter (fun c => ¬ commonVars.contains c)
      else [])).flatten
    let dtypeRt := match dtypeArg with
      | some dm => dm
      | none => pandasMapFor dataDescription nonRtCols
    nonRtCols.foldlM (fun df col => nullifyCol df rectype col dtypeRt) df) df

/-- `df[col] = df[col].astype(common_dtype[col])` for one common column. -/
def astypeCommonCol (df : Frame) (col : String) (m : DtypeMap) :
    Except PyError Frame := do
  let t ← match alookup m col with
    | some t => pure t
    | none => throw PyError.keyError
  let cur ← match (df.find? (fun c => c.name == col)).map Col.cells with
    | some cs => pure cs
    | none => throw PyError.keyError
  let cells ← cur.mapM (astypeCell t)
  pure (setCol df col t cells)

/-- The result of `read_hierarchical_microdata`: one frame per record type,
or a single unified frame. -/
inductive HierOutput where
  | dict (d : List (String × Frame))
  | frame (f : Frame)
  deriving DecidableEq, Repr

/-- Body of `read_hierarchical_microdata` after the subset guard: refuse
rectangular codebooks, compute the common variables and the record-type tag
list from the RECTYPE description, build the per-record-type dict, and in
unified mode re-read everything as strings, nullify non-owning columns per
record type, and restore the common columns' dtypes. -/
def readHierBody (ddi : Codebook) (dataDescription : List VariableDescription)
    (subset : Option (List String)) (dtypeArg : Option DtypeMap)
    (asDict : Bool) (lines : List String) : Except PyError HierOutput := do
  if ddi.file_description.structure_ = "rectangular" then
    throw PyError.notImplementedError
  else do
    let commonVars ← get_common_vars dataDescription
    let rd ← match dataDescription.filter (fun v => v.name == "RECTYPE") with
      | [] => throw PyError.indexError
      | v :: _ => pure v
    let allRectypes := pySplitSpace rd.rectype
    let dfDict ← buildDfDict ddi dataDescription dtypeArg lines commonVars allRectypes
    if asDict then pure (HierOutput.dict dfDict)
    else do
      let dtypeStrAll : DtypeMap := dataDescription.map (fun v => (v.name, Dtype.stringD))
      let fs ← readMicrodataIter ddi.data_description subset (some dtypeStrAll) [lines]
      let df := concatFrames fs
      let df2 ← hierUnifiedNulling df dfDict dataDescription dtypeArg commonVars
      let commonDtype := pandasMapFor dataDescription commonVars
      let df3 ← commonVars.foldlM (fun f col => astypeCommonCol f col commonDtype) df2
      pure (HierOutput.frame df3)

/-- `ipumspy.readers.read_hierarchical_microdata`: an explicit subset that
omits RECTYPE raises `ValueError` before anything else happens (in
particular before any data is read); otherwise the body runs on the
(possibly subset) data description. -/
def read_hierarchical_microdata (ddi : Codebook)
    (subset : Option (List String)) (dtypeArg : Option DtypeMap)
    (asDict : Bool) (lines : List String) : Except PyError HierOutput :=
  match subset with
  | some l =>
    if l.contains "RECTYPE" then
      readHierBody ddi (ddi.data_description.filter (fun v => l.contains v.name))
        (some l) dtypeArg asDict lines
    else
      .error .valueErrorRectype
  | none => readHierBody ddi ddi.data_description none dtypeArg asDict lines

end Ipumspy

namespace Ipumspy

/-- A well-formed raw field for an integer-resolved or decimal-shift column:
blank (missing) or parseable as an integer. -/
def goodIntField (s : String) : Prop :=
  s = "" ∨ (pyIntParse s).isSome

/-- Decidability of `goodIntField`, so witnesses can be checked by `decide`. -/
instance : DecidablePred goodIntField := fun s =>
  inferInstanceAs (Decidable (s = "" ∨ (pyIntParse s).isSome))

/-- The integer a well-formed cell casts to under `astype(int)` (0 as an
arbitrary value in the unreachable unparsable case). -/
def cellIntVal : Cell → Int
  | Cell.null => 0
  | Cell.str s => (pyIntParse s).getD 0
  | Cell.int n => n
  | Cell.float q => ratTrunc q

/-- The decoded cell of a well-formed raw field, per resolved column type:
integer columns parse (blank is missing), decimal-shift columns divide the
parsed integer by `10^shift` (blank coerces to 0 through the `fillna(0)`
fallback), string columns keep the stripped field (blank is missing).  This
is the specification-level row decoder that the pipeline is proved to
implement on well-formed input. -/
def decodeCellGood (d : VariableDescription) (s : String) : Cell :=
  match d.pandas_type with
  | Dtype.int64N =>
    if s = "" then Cell.null
    else
      match pyIntParse s with
      | some n => Cell.int n
      | none => Cell.null
  | Dtype.float64 =>
    (match d.shift with
     | some k =>
       if s = "" then Cell.float 0
       else
         match pyIntParse s with
         | some n => Cell.float ((n : ℚ) / (10 : ℚ) ^ k.toNat)
         | none => Cell.float 0
     | none => Cell.null)
  | Dtype.float64N => Cell.null
  | Dtype.stringD => strCellOf s

/-- The frame a well-formed fixed-width decode produces: one column per
description, at its declared pandas type, with every row decoded by
`decodeCellGood`. -/
def goodFrame (descs : List VariableDescription) (lines : List String) :
    Frame :=
  descs.map (fun d =>
    { name := d.name, dtype := d.pandas_type,
      cells := lines.map (fun l => decodeCellGood d (fieldStr l d)) })

/-- The schema (column names and dtypes) of a frame. -/
def schemaOf (f : Frame) : List (String × Dtype) :=
  f.map (fun c => (c.name, c.dtype))

/-- Decimal shift of a description as a plain integer (0 when absent). -/
def shiftOf (d : VariableDescription) : Int :=
  d.shift.getD 0

/-- Hypotheses under which a fixed-width decode is well formed: positive-shift
columns are declared numeric, and every raw field of an integer-resolved or
decimal-shift column is blank or an integer numeral. -/
def goodDecode (descs : List VariableDescription) (lines : List String) : Prop :=
  (∀ d ∈ descs, ∀ k, d.shift = some k → 0 ≤ k) ∧
  (∀ d ∈ descs, 0 < shiftOf d → d.vartype = "numeric") ∧
  (∀ d ∈ descs, d.pandas_type = Dtype.int64N →
    ∀ l ∈ lines, goodIntField (fieldStr l d)) ∧
  (∀ d ∈ descs, 0 < shiftOf d → ∀ l ∈ lines, goodIntField (fieldStr l d))

/-- The value cast and shifted by a well-formed decimal expansion (blank
fields fall to 0 through the coercing fallback). -/
def goodDecCell (k : Nat) : Cell → Cell
  | Cell.null => Cell.float 0
  | Cell.str s =>
    (match pyIntParse s with
     | some n => Cell.float ((n : ℚ) / (10 : ℚ) ^ k)
     | none => Cell.float 0)
  | Cell.int n => Cell.float ((n : ℚ) / (10 : ℚ) ^ k)
  | Cell.float q => Cell.float ((ratTrunc q : ℚ) / (10 : ℚ) ^ k)

/-- One cell after `_fix_decimal_expansion` (before the final `astype`). -/
def midCell (d : VariableDescription) (s : String) : Cell :=
  match d.shift with
  | some k =>
    if 0 < k then goodDecCell k.toNat (strCellOf s) else strCellOf s
  | none => strCellOf s

/-- One column dtype after `_fix_decimal_expansion`. -/
def midColDtype (d : VariableDescription) : Dtype :=
  match d.shift with
  | some k => if 0 < k then Dtype.float64 else Dtype.stringD
  | none => Dtype.stringD

/-- The frame after `_fix_decimal_expansion` of a well-formed decode. -/
def midFrame (descs : List VariableDescription) (lines : List String) : Frame :=
  descs.map (fun d =>
    { name := d.name, dtype := midColDtype d,
      cells := lines.map (fun l => midCell d (fieldStr l d)) })

/-- One column's pass through `_fix_decimal_expansion`: positive-shift
columns are cast and divided, all others pass through. -/
def processDecimalCol (v : VariableDescription) (c : Col) : Except PyError Col :=
  match v.shift with
  | some k =>
    if 0 < k then
      (fixDecimalCol k.toNat c.cells).map (fun cs =>
        { name := c.name, dtype := Dtype.float64, cells := cs })
    else .ok c
  | none => .ok c

/-- The raw field cells of one column, per `decodeCellGood`'s fallback for
blank fields (used to state the corrected decimal-shift fallback claim). -/
def coercedDecimalCells (d : VariableDescription) (k : Nat)
    (lines : List String) : List Cell :=
  lines.map (fun l => coerceDecimalCell k (strCellOf (fieldStr l d)))

/-- The decoded cell of a raw field under the nullable-integer type. -/
def intCellOfField (s : String) : Cell :=
  if s = "" then Cell.null
  else
    match pyIntParse s with
    | some n => Cell.int n
    | none => Cell.null

/-- The decoded cell of a raw field under the nullable-float type. -/
def floatCellOfField (s : String) : Cell :=
  if s = "" then Cell.null
  else
    match pyFloatParse s with
    | some q => Cell.float q
    | none => Cell.null

/-- A one-variable rectangular codebook around a single description. -/
def singleVarCodebook (v : VariableDescription) : Codebook :=
  { file_description :=
      { filename := some "extract.dat", description := none,
        structure_ := "rectangular", encoding := "iso-8859-1",
        format := none, place := none },
    data_description := [v],
    samples_description := [], ipums_citation := none,
    ipums_conditions := none, ipums_collection := "CPS", ipums_doi := none }

/-- Concrete description: numeric, no decimal shift, columns 0-3. -/
def vdPlain : VariableDescription :=
  { id := "V", name := "V", codes := [], start := 0, end_ := 3, label := none,
    description := none, concept := none, vartype := "numeric", shift := none,
    rectype := "" }

/-- Concrete description: numeric, decimal shift 2, columns 0-5. -/
def vdShift2 : VariableDescription :=
  { id := "W", name := "W", codes := [], start := 0, end_ := 5, label := none,
    description := none, concept := none, vartype := "numeric",
    shift := some 2, rectype := "" }

/-- Concrete rectangular codebook with the single unshifted numeric column. -/
def cbPlain : Codebook := singleVarCodebook vdPlain

/-- Concrete rectangular codebook with the single shift-2 numeric column. -/
def cbShift2 : Codebook := singleVarCodebook vdShift2

end Ipumspy

namespace Ipumspy

/-- Concrete variable element used to witness the location-parsing claims:
`StartPos = "3"`, `EndPos = "7"`, no record-type attribute. -/
def eltC8 : XmlElt :=
  { tag := "var", attrs := [("ID", "X"), ("name", "X")], text := none,
    children :=
      [{ tag := "varFormat", attrs := [("type", "character")], text := none, children := [] },
       { tag := "location", attrs := [("StartPos", "3"), ("EndPos", "7")], text := none, children := [] },
       { tag := "labl", attrs := [], text := some "lab", children := [] },
       { tag := "txt", attrs := [], text := some "txt", children := [] },
       { tag := "concept", attrs := [], text := some "con", children := [] }] }

/-- The description `eltC8` parses to. -/
def vdC8 : VariableDescription :=
  { id := "X", name := "X", codes := [], start := 2, end_ := 7,
    label := some "lab", description := some "txt", concept := some "con",
    vartype := "character", shift := none, rectype := "" }

end Ipumspy

namespace Ipumspy

/-- Codebook element with two file-description blocks (otherwise well
formed), used to witness the malformed-codebook rejection. -/
def eltTwoFileTxt : XmlElt :=
  { tag := "codeBook", attrs := [], text := none,
    children :=
      [{ tag := "fileDscr", attrs := [], text := none,
         children :=
           [{ tag := "fileTxt", attrs := [], text := none, children := [] },
            { tag := "fileTxt", attrs := [], text := none, children := [] }] }] }

/-- Codebook element with exactly one (empty) file-description block. -/
def eltOneFileTxt : XmlElt :=
  { tag := "codeBook", attrs := [], text := none,
    children :=
      [{ tag := "fileDscr", attrs := [], text := none,
         children :=
           [{ tag := "fileTxt", attrs := [], text := none, children := [] }] }] }

/-- Errors that the data-layer readers (element lookups, text and attribute
access, `int()` parsing) can raise: everything except the structural
`NotImplementedError` of the codebook reader, the structure checks of the
microdata readers, and the RECTYPE-subset `ValueError` guard. -/
def DataErr (e : PyError) : Prop :=
  e = PyError.typeError ∨ e = PyError.valueError ∨ e = PyError.attributeError ∨
  e = PyError.keyError ∨ e = PyError.indexError ∨ e = PyError.stopIteration

end Ipumspy

namespace Ipumspy

/-- Variable element carrying the record-type attribute `"H P"`. -/
def eltC3HP : XmlElt :=
  { tag := "var", attrs := [("ID", "A"), ("name", "A"), ("rectype", "H P")],
    text := none,
    children :=
      [{ tag := "varFormat", attrs := [("type", "character")], text := none, children := [] },
       { tag := "location", attrs := [("StartPos", "2"), ("EndPos", "3")], text := none, children := [] },
       { tag := "labl", attrs := [], text := some "lab", children := [] },
       { tag := "txt", attrs := [], text := some "txt", children := [] },
       { tag := "concept", attrs := [], text := some "con", children := [] }] }

/-- The description `eltC3HP` parses to. -/
def vdC3HP : VariableDescription :=
  { id := "A", name := "A", codes := [], start := 1, end_ := 3,
    label := some "lab", description := some "txt", concept := some "con",
    vartype := "character", shift := none, rectype := "H P" }

/-- A RECTYPE discriminator description whose record-type string lists the
record types `H` and `P`. -/
def vdRectypeHP : VariableDescription :=
  { id := "RECTYPE", name := "RECTYPE", codes := [], start := 0, end_ := 1,
    label := none, description := none, concept := none,
    vartype := "character", shift := none, rectype := "H P" }

/-- Common character column `A` of the two-record-type codebook (record
types `H P`, columns 1-2). -/
def vdA2 : VariableDescription :=
  { id := "A", name := "A", codes := [], start := 1, end_ := 3,
    label := none, description := none, concept := none,
    vartype := "character", shift := none, rectype := "H P" }

/-- `H`-only numeric column `B` (no decimal shift, columns 3-4). -/
def vdB2 : VariableDescription :=
  { id := "B", name := "B", codes := [], start := 3, end_ := 5,
    label := none, description := none, concept := none,
    vartype := "numeric", shift := none, rectype := "H" }

/-- `P`-only character column `C` (columns 5-6). -/
def vdC2v : VariableDescription :=
  { id := "C", name := "C", codes := [], start := 5, end_ := 7,
    label := none, description := none, concept := none,
    vartype := "character", shift := none, rectype := "P" }

/-- The hierarchical codebook of the unified-decode claim: RECTYPE and `A`
common to record types `H` and `P`, `B` owned by `H`, `C` owned by `P`. -/
def cbHier : Codebook :=
  { file_description :=
      { filename := some "extract.dat", description := none,
        structure_ := "hierarchical", encoding := "iso-8859-1",
        format := none, place := none },
    data_description := [vdRectypeHP, vdA2, vdB2, vdC2v],
    samples_description := [], ipums_citation := none,
    ipums_conditions := none, ipums_collection := "CPS", ipums_doi := none }

end Ipumspy

namespace Ipumspy

theorem exceptBind_ok {α β : Type} {x : Except PyError α}
    {f : α → Except PyError β} {b : β} :
    (x >>= f) = .ok b ↔ ∃ a, x = .ok a ∧ f a = .ok b := by
  cases x <;> simp [Bind.bind, Except.bind]

theorem exceptPure_ok {α : Type} {a b : α} :
    (pure a : Except PyError α) = .ok b ↔ a = b := by
  simp [pure, Except.pure]

/-- Claim C8: for a variable location element with 1-based inclusive start
`S` and end `E` (as parsed by `int()`), the variable description produced by
the codebook parser has `start = S - 1` and `end = E`, a 0-based half-open
range whose length `end - start` is the declared inclusive field width
`E - S + 1`. -/
theorem variable_location_bounds_c8 (elt : XmlElt) (sS eS : String)
    (S E : Int) (vd : VariableDescription)
    (hs : getAttr (elt.find? ["location"]) "StartPos" = .ok sS)
    (hS : pyInt sS = .ok S)
    (he : getAttr (elt.find? ["location"]) "EndPos" = .ok eS)
    (hE : pyInt eS = .ok E)
    (hread : VariableDescription.read elt = .ok vd) :
    vd.start = S - 1 ∧ vd.end_ = E ∧ vd.end_ - vd.start = E - S + 1 := by
  unfold VariableDescription.read at hread
  simp only [exceptBind_ok] at hread
  obtain ⟨vt, hvt, codes, hcodes, id, hid, nm, hnm, sS', hsS', S', hS', eS',
    heS', E', hE', lab, hlab, dsc, hdsc, con, hcon, rest⟩ := hread
  rw [hs] at hsS'
  injection hsS' with hseq
  subst hseq
  rw [hS] at hS'
  injection hS' with hSeq
  subst hSeq
  rw [he] at heS'
  injection heS' with heeq
  subst heeq
  rw [hE] at hE'
  injection hE' with hEeq
  subst hEeq
  rcases hdc : elt.attrGet "dcml" with _ | s <;> rw [hdc] at rest <;>
    simp only [exceptBind_ok, exceptPure_ok] at rest
  · obtain ⟨a, -, hrec⟩ := rest
    subst hrec
    exact ⟨rfl, rfl, by show E - (S - 1) = E - S + 1; omega⟩
  · obtain ⟨n, hn, a, -, hrec⟩ := rest
    subst hrec
    exact ⟨rfl, rfl, by show E - (S - 1) = E - S + 1; omega⟩

/-- Checked instance of the C8 theorem on the concrete element `eltC8`
(start position 3, end position 7, inclusive width 5). -/
theorem variable_location_bounds_c8_witness :
    VariableDescription.read eltC8 = .ok vdC8 ∧
    vdC8.start = 3 - 1 ∧ vdC8.end_ = 7 ∧ vdC8.end_ - vdC8.start = 7 - 3 + 1 := by
  have hread : VariableDescription.read eltC8 = .ok vdC8 := rfl
  exact ⟨hread,
    variable_location_bounds_c8 eltC8 "3" "7" 3 7 vdC8 rfl rfl rfl rfl hread⟩

end Ipumspy

namespace Ipumspy

/-- Claim C10: `get_variable_info` returns the first variable description
whose id equals the upper-cased lookup name (so lookup is case-insensitive
in the given name but only matches upper-case ids), and raises `ValueError`
exactly when no description has that id. -/
theorem get_variable_info_c10 (cb : Codebook) (name : String) :
    (∀ l1 v l2, cb.data_description = l1 ++ v :: l2 →
      (∀ w ∈ l1, w.id ≠ pyUpper name) → v.id = pyUpper name →
      cb.get_variable_info name = .ok v)
    ∧ (cb.get_variable_info name = .error PyError.valueError ↔
      ∀ w ∈ cb.data_description, w.id ≠ pyUpper name) := by
  constructor
  · intro l1 v l2 hdd h1 hv
    unfold Codebook.get_variable_info
    rw [hdd, List.filter_append]
    have hl1 : List.filter (fun vd => vd.id == pyUpper name) l1 = [] := by
      simp only [List.filter_eq_nil_iff, beq_iff_eq]
      exact h1
    rw [hl1]
    simp [List.filter_cons, hv]
  · unfold Codebook.get_variable_info
    rcases hh : (List.filter (fun vd => vd.id == pyUpper name)
        cb.data_description).head? with _ | w
    · simp only [hh]
      rw [List.head?_eq_none_iff] at hh
      simp only [List.filter_eq_nil_iff, beq_iff_eq] at hh
      simpa using hh
    · simp only [hh]
      have hwmem : w ∈ List.filter (fun vd => vd.id == pyUpper name)
          cb.data_description := List.mem_of_mem_head? hh
      rw [List.mem_filter, beq_iff_eq] at hwmem
      constructor
      · intro h
        exact absurd h (by simp)
      · intro hall
        exact absurd hwmem.2 (hall w hwmem.1)

/-- Checked instance of the C10 theorem: the lower-case name `"v"` finds the
description with id `"V"`, and a name matching no id raises `ValueError`. -/
theorem get_variable_info_c10_witness :
    cbPlain.get_variable_info "v" = .ok vdPlain ∧
    cbPlain.get_variable_info "ZZ" = .error PyError.valueError := by
  constructor
  · exact (get_variable_info_c10 cbPlain "v").1 [] vdPlain []
      rfl (by simp) (by decide)
  · exact (get_variable_info_c10 cbPlain "ZZ").2.mpr (by decide)

end Ipumspy

namespace Ipumspy

theorem pure_not_err {γ : Type} {b : γ} {e : PyError} :
    (pure b : Except PyError γ) ≠ .error e := by
  simp [pure, Except.pure]

theorem errIn_bind {α β : Type} {x : Except PyError α}
    {f : α → Except PyError β} {P : PyError → Prop}
    (hx : ∀ e, x = .error e → P e) (hf : ∀ a e, f a = .error e → P e) :
    ∀ e, (x >>= f) = .error e → P e := by
  intro e h
  cases x with
  | error e' =>
    have hb : (Except.error e' >>= f : Except PyError β) = Except.error e' := rfl
    rw [hb] at h
    injection h with he
    exact he ▸ hx e' rfl
  | ok a =>
    have hb : (Except.ok a >>= f : Except PyError β) = f a := rfl
    rw [hb] at h
    exact hf a e h

theorem errIn_mapM {α β : Type} {f : α → Except PyError β} {P : PyError → Prop}
    (l : List α) (hf : ∀ a ∈ l, ∀ e, f a = .error e → P e) :
    ∀ e, l.mapM f = .error e → P e := by
  induction l with
  | nil =>
    intro e h
    exact absurd h pure_not_err
  | cons a as ih =>
    intro e h
    rw [List.mapM_cons] at h
    refine errIn_bind (hf a (by simp)) (fun b => ?_) e h
    refine errIn_bind (ih (fun a' ha' => hf a' (by simp [ha']))) (fun bs e' h' => ?_)
    exact absurd h' pure_not_err

theorem errIn_foldlM {α β : Type} {f : β → α → Except PyError β}
    {P : PyError → Prop} (l : List α) :
    ∀ (b : β), (∀ b' a, a ∈ l → ∀ e, f b' a = .error e → P e) →
    ∀ e, l.foldlM f b = .error e → P e := by
  induction l with
  | nil =>
    intro b _ e h
    exact absurd h pure_not_err
  | cons a as ih =>
    intro b hall e h
    rw [List.foldlM_cons] at h
    refine errIn_bind (hall b a (by simp)) (fun b' => ?_) e h
    exact ih b' (fun b'' a' ha' => hall b'' a' (by simp [ha']))

theorem getText_err (x : Option XmlElt) :
    ∀ e, getText x = .error e → DataErr e := by
  intro e h
  unfold getText at h
  split at h
  · injection h with h'
    simp [← h', DataErr]
  · simp at h

theorem getAttr_err (x : Option XmlElt) (k : String) :
    ∀ e, getAttr x k = .error e → DataErr e := by
  intro e h
  unfold getAttr at h
  split at h
  · injection h with h'
    simp [← h', DataErr]
  · split at h
    · injection h with h'
      simp [← h', DataErr]
    · simp at h

theorem attr_err (el : XmlElt) (k : String) :
    ∀ e, el.attr k = .error e → DataErr e := by
  intro e h
  unfold XmlElt.attr at h
  split at h
  · injection h with h'
    simp [← h', DataErr]
  · simp at h

theorem pyInt_err (s : String) : ∀ e, pyInt s = .error e → DataErr e := by
  intro e h
  unfold pyInt at h
  split at h
  · simp at h
  · injection h with h'
    simp [← h', DataErr]

theorem pyIntOfOptText_err (t : Option String) :
    ∀ e, pyIntOfOptText t = .error e → DataErr e := by
  intro e h
  unfold pyIntOfOptText at h
  split at h
  · injection h with h'
    simp [← h', DataErr]
  · exact pyInt_err _ e h

theorem readCatgry_err (vt : String) (acc : List (Option String × CodeVal))
    (cat : XmlElt) : ∀ e, readCatgry vt acc cat = .error e → DataErr e := by
  unfold readCatgry
  refine errIn_bind (getText_err _) (fun lab => ?_)
  refine errIn_bind (getText_err _) (fun val => ?_)
  intro e h
  split at h
  · exact errIn_bind (pyIntOfOptText_err _)
      (fun n e' h' => absurd h' pure_not_err) e h
  · exact absurd h pure_not_err

theorem variableDescription_read_err (elt : XmlElt) :
    ∀ e, VariableDescription.read elt = .error e → DataErr e := by
  unfold VariableDescription.read
  refine errIn_bind (getAttr_err _ _) (fun vt => ?_)
  refine errIn_bind (errIn_foldlM _ _ (fun b a _ => readCatgry_err vt b a)) (fun codes => ?_)
  refine errIn_bind (attr_err _ _) (fun id => ?_)
  refine errIn_bind (attr_err _ _) (fun nm => ?_)
  refine errIn_bind (getAttr_err _ _) (fun sS => ?_)
  refine errIn_bind (pyInt_err _) (fun S => ?_)
  refine errIn_bind (getAttr_err _ _) (fun eS => ?_)
  refine errIn_bind (pyInt_err _) (fun E => ?_)
  refine errIn_bind (getText_err _) (fun lab => ?_)
  refine errIn_bind (getText_err _) (fun dsc => ?_)
  refine errIn_bind (getText_err _) (fun con => ?_)
  cases elt.attrGet "dcml" with
  | none =>
    refine errIn_bind (fun e h => absurd h pure_not_err) (fun sh e h => ?_)
    exact absurd h pure_not_err
  | some s =>
    refine errIn_bind (pyInt_err _) (fun n => ?_)
    refine errIn_bind (fun e h => absurd h pure_not_err) (fun sh e h => ?_)
    exact absurd h pure_not_err

theorem fileDescription_read_err (elt : XmlElt) :
    ∀ e, FileDescription.read elt = .error e → DataErr e := by
  unfold FileDescription.read
  refine errIn_bind (getText_err _) (fun fn => ?_)
  refine errIn_bind (getText_err _) (fun dsc => ?_)
  refine errIn_bind (getAttr_err _ _) (fun st => ?_)
  cases elt.find? ["fileType"] with
  | none =>
    refine errIn_bind (fun e h => ?_) (fun enc => ?_)
    · injection h with h'
      simp [← h', DataErr]
    · refine errIn_bind (getText_err _) (fun fmt => ?_)
      refine errIn_bind (getText_err _) (fun pl e h => ?_)
      exact absurd h pure_not_err
  | some ft =>
    refine errIn_bind (fun e h => by simp at h) (fun enc => ?_)
    refine errIn_bind (getText_err _) (fun fmt => ?_)
    refine errIn_bind (getText_err _) (fun pl e h => ?_)
    exact absurd h pure_not_err

theorem sampleNameRow_err (item : XmlElt) :
    ∀ e, sampleNameRow item = .error e → DataErr e := by
  intro e h
  unfold sampleNameRow at h
  split at h
  · injection h with h'
    simp [← h', DataErr]
  · simp at h

theorem codebook_read_body_err (elt : XmlElt)
    (hlen : (elt.findall ["fileDscr", "fileTxt"]).length = 1) :
    ∀ e, Codebook.read elt = .error e → DataErr e := by
  unfold Codebook.read
  rw [if_neg (by omega)]
  refine errIn_bind (errIn_mapM _ (fun a _ => sampleNameRow_err a)) (fun rows => ?_)
  refine errIn_bind (getText_err _) (fun cit => ?_)
  refine errIn_bind (getText_err _) (fun cond => ?_)
  refine errIn_bind (getAttr_err _ _) (fun coll => ?_)
  refine errIn_bind (getText_err _) (fun doi => ?_)
  refine errIn_bind (fileDescription_read_err _) (fun fd => ?_)
  refine errIn_bind (errIn_mapM _ (fun a _ => variableDescription_read_err a)) (fun dd e h => ?_)
  exact absurd h pure_not_err

/-- Claim C9: a codebook document with more than one file-description block
is rejected (with the reader's `NotImplementedError`, the error the spec
names `MalformedCodebook`) before any codebook field is parsed — the result
is the bare error regardless of every other part of the document — while a
document with exactly one file-description block never raises that error
(its parse may fail, but only with a data-layer error). -/
theorem codebook_multiple_filedscr_c9 (elt : XmlElt) :
    (2 ≤ (elt.findall ["fileDscr", "fileTxt"]).length →
      Codebook.read elt = .error PyError.notImplementedError)
    ∧ ((elt.findall ["fileDscr", "fileTxt"]).length = 1 →
      Codebook.read elt ≠ .error PyError.notImplementedError) := by
  constructor
  · intro hlen
    unfold Codebook.read
    rw [if_pos (by omega)]
    rfl
  · intro hlen h
    have := codebook_read_body_err elt hlen PyError.notImplementedError h
    simp [DataErr] at this

/-- Checked instance of the C9 theorem: the two-block element is rejected
with the malformed-codebook error, the one-block element is not. -/
theorem codebook_multiple_filedscr_c9_witness :
    Codebook.read eltTwoFileTxt = .error PyError.notImplementedError ∧
    Codebook.read eltOneFileTxt ≠ .error PyError.notImplementedError := by
  constructor
  · exact (codebook_multiple_filedscr_c9 eltTwoFileTxt).1 (by decide)
  · exact (codebook_multiple_filedscr_c9 eltOneFileTxt).2 (by decide)

end Ipumspy

namespace Ipumspy

theorem read_rectype_eq (elt : XmlElt) (vd : VariableDescription)
    (hread : VariableDescription.read elt = .ok vd) :
    vd.rectype = (elt.attrGet "rectype").getD "" := by
  unfold VariableDescription.read at hread
  simp only [exceptBind_ok] at hread
  obtain ⟨vt, hvt, codes, hcodes, id, hid, nm, hnm, sS', hsS', S', hS', eS',
    heS', E', hE', lab, hlab, dsc, hdsc, con, hcon, rest⟩ := hread
  rcases hdc : elt.attrGet "dcml" with _ | s <;> rw [hdc] at rest <;>
    simp only [exceptBind_ok, exceptPure_ok] at rest
  · obtain ⟨a, -, hrec⟩ := rest
    subst hrec
    rfl
  · obtain ⟨n, hn, a, -, hrec⟩ := rest
    subst hrec
    rfl

/-- Claim C3, corrected: the parser stores the variable element's record-type
attribute verbatim on the description (so the whitespace-token set read
downstream from the parsed model equals the token set of the attribute), and
a variable element without the attribute gets the empty string.  The empty
string is not treated as "common to all record types" by the downstream
common-variable computation whenever the discriminator itself lists record
types (see the counterexample). -/
theorem rectype_attribute_c3 (elt : XmlElt) (vd : VariableDescription) :
    (∀ r, elt.attrGet "rectype" = some r →
      VariableDescription.read elt = .ok vd →
      vd.rectype = r ∧ pySplitSpace vd.rectype = pySplitSpace r)
    ∧ (elt.attrGet "rectype" = none →
      VariableDescription.read elt = .ok vd → vd.rectype = "") := by
  constructor
  · intro r hattr hread
    have h := read_rectype_eq elt vd hread
    rw [hattr, Option.getD_some] at h
    exact ⟨h, by rw [h]⟩
  · intro hattr hread
    have h := read_rectype_eq elt vd hread
    rw [hattr, Option.getD_none] at h
    exact h

/-- Checked instance of the C3 theorem: the attribute `"H P"` is stored
verbatim and its token set is `["H", "P"]`. -/
theorem rectype_attribute_c3_witness :
    VariableDescription.read eltC3HP = .ok vdC3HP ∧
    vdC3HP.rectype = "H P" ∧ pySplitSpace vdC3HP.rectype = ["H", "P"] := by
  have hread : VariableDescription.read eltC3HP = .ok vdC3HP := rfl
  have h := (rectype_attribute_c3 eltC3HP vdC3HP).1 "H P" rfl hread
  exact ⟨hread, h.1, by rw [h.1]; decide⟩

/-- Counterexample to claim C3 as stated: a variable element without the
record-type attribute parses with `rectype = ""`, and in a hierarchical
codebook whose discriminator lists the record types (`"H P"`), the
attribute-less variable is NOT classified as common to all record types by
the downstream common-variable computation (`_get_common_vars` returns only
`RECTYPE`). -/
theorem rectype_attribute_c3_counterexample :
    VariableDescription.read eltC8 = .ok vdC8 ∧ vdC8.rectype = "" ∧
    get_common_vars [vdRectypeHP, vdC8] = .ok ["RECTYPE"] ∧
    "X" ∉ (["RECTYPE"] : List String) := by
  refine ⟨rfl, rfl, by decide, by decide⟩

end Ipumspy

namespace Ipumspy

theorem digit_ne_dot {c : Char} (h : c.isDigit = true) : c ≠ '.' := by
  intro he
  subst he
  simp [Char.isDigit] at h

theorem decimalCore_of_digits {cs : List Char} {m : Nat}
    (h : digitsToNat cs = some m) : decimalCore cs = some (m : ℚ) := by
  have hne : cs ≠ [] := by
    intro he
    subst he
    simp [digitsToNat] at h
  have hdig : cs.all Char.isDigit = true := by
    unfold digitsToNat at h
    cases cs with
    | nil => simp at h
    | cons a as =>
      by_contra hc
      simp only [hc] at h
      simp at h
  have hdrop : List.dropWhile (fun x => decide (x ≠ '.')) cs = [] := by
    rw [List.dropWhile_eq_nil_iff]
    intro a ha
    simpa using digit_ne_dot (List.all_eq_true.mp hdig a ha)
  unfold decimalCore
  rw [hdrop]
  cases cs with
  | nil => exact absurd rfl hne
  | cons a as =>
    rw [h]

theorem pyFloatParseChars_of_int {cs : List Char} {n : Int}
    (h : pyIntParseChars cs = some n) : pyFloatParseChars cs = some (n : ℚ) := by
  cases cs with
  | nil => simp [pyIntParseChars] at h
  | cons a as =>
    rw [pyIntParseChars] at h
    rw [pyFloatParseChars]
    by_cases ha : a = '-'
    · rw [if_pos ha] at h ⊢
      rcases hd : digitsToNat as with _ | m <;> rw [hd] at h
      · simp at h
      · injection h with hn
        rw [decimalCore_of_digits hd]
        simp [← hn]
    · rw [if_neg ha] at h ⊢
      by_cases hb : a = '+'
      · rw [if_pos hb] at h ⊢
        rcases hd : digitsToNat as with _ | m <;> rw [hd] at h
        · simp at h
        · injection h with hn
          rw [decimalCore_of_digits hd]
          simp [← hn]
      · rw [if_neg hb] at h ⊢
        rcases hd : digitsToNat (a :: as) with _ | m <;> rw [hd] at h
        · simp at h
        · injection h with hn
          rw [decimalCore_of_digits hd]
          simp [← hn]

theorem pyFloatParse_of_int {s : String} {n : Int}
    (h : pyIntParse s = some n) : pyFloatParse s = some (n : ℚ) :=
  pyFloatParseChars_of_int h

theorem ratTrunc_intCast (n : Int) : ratTrunc (n : ℚ) = n := by
  unfold ratTrunc
  rw [Rat.num_intCast, Rat.den_intCast]
  rcases n with m | m <;> simp [Int.tdiv, Nat.div_one, Int.negSucc_eq]

end Ipumspy

namespace Ipumspy

theorem intList_ok (cells : List Cell)
    (h : ∀ c ∈ cells, ∃ s n, c = Cell.str s ∧ pyIntParse s = some n) :
    intListOfCells cells = .ok (cells.map cellIntVal) := by
  induction cells with
  | nil => rfl
  | cons c cs ih =>
    obtain ⟨s, n, hc, hn⟩ := h c (by simp)
    subst hc
    rw [intListOfCells, hn, ih (fun c hc => h c (by simp [hc]))]
    simp [Bind.bind, Except.bind, pure, Except.pure, cellIntVal, hn]

theorem intList_typeError (cells : List Cell)
    (h : ∀ c ∈ cells, c = Cell.null ∨ ∃ s n, c = Cell.str s ∧ pyIntParse s = some n)
    (hnull : Cell.null ∈ cells) :
    intListOfCells cells = .error PyError.typeError := by
  induction cells with
  | nil => simp at hnull
  | cons c cs ih =>
    rcases h c (by simp) with rfl | ⟨s, n, rfl, hp⟩
    · rfl
    · have hn' : Cell.null ∈ cs := by
        rcases List.mem_cons.mp hnull with h1 | h1
        · exact absurd h1 (by simp)
        · exact h1
      rw [intListOfCells, hp, ih (fun c hc => h c (by simp [hc])) hn']
      rfl

theorem intList_valueError (cells : List Cell)
    (hstr : ∀ c ∈ cells, ∃ s, c = Cell.str s)
    (hbad : ∃ c ∈ cells, ∃ s, c = Cell.str s ∧ pyIntParse s = none) :
    intListOfCells cells = .error PyError.valueError := by
  induction cells with
  | nil => simp at hbad
  | cons c cs ih =>
    obtain ⟨s, rfl⟩ := hstr (c) (by simp)
    rcases hp : pyIntParse s with _ | n
    · rw [intListOfCells, hp]
      rfl
    · obtain ⟨c', hc', s', hcs', hbad'⟩ := hbad
      rcases List.mem_cons.mp hc' with h1 | h1
      · subst h1
        injection hcs' with hss
        subst hss
        rw [hp] at hbad'
        simp at hbad'
      · rw [intListOfCells, hp,
          ih (fun c hc => hstr c (by simp [hc])) ⟨c', h1, s', hcs', hbad'⟩]
        rfl

theorem fixDecimalCol_good (k : Nat) (cells : List Cell)
    (h : ∀ c ∈ cells, c = Cell.null ∨ ∃ s n, c = Cell.str s ∧ pyIntParse s = some n) :
    fixDecimalCol k cells = .ok (cells.map (goodDecCell k)) := by
  by_cases hnull : Cell.null ∈ cells
  · unfold fixDecimalCol
    rw [intList_typeError cells h hnull]
    show Except.ok (cells.map (coerceDecimalCell k)) =
      Except.ok (cells.map (goodDecCell k))
    congr 1
    refine List.map_congr_left (fun c hc => ?_)
    rcases h c hc with rfl | ⟨s, n, rfl, hp⟩
    · rfl
    · simp only [coerceDecimalCell, goodDecCell]
      rw [pyFloatParse_of_int hp, hp]
      simp [ratTrunc_intCast]
  · unfold fixDecimalCol
    have h' : ∀ c ∈ cells, ∃ s n, c = Cell.str s ∧ pyIntParse s = some n := by
      intro c hc
      rcases h c hc with rfl | hh
      · exact absurd hc hnull
      · exact hh
    rw [intList_ok cells h']
    show Except.ok ((cells.map cellIntVal).map
        (fun n : Int => Cell.float ((n : ℚ) / (10 : ℚ) ^ k))) =
      Except.ok (cells.map (goodDecCell k))
    congr 1
    rw [List.map_map]
    refine List.map_congr_left (fun c hc => ?_)
    obtain ⟨s, n, rfl, hp⟩ := h' c hc
    simp only [Function.comp_apply, cellIntVal, goodDecCell, hp, Option.getD_some]

theorem fixDecimalCol_valueError (k : Nat) (cells : List Cell)
    (hstr : ∀ c ∈ cells, ∃ s, c = Cell.str s)
    (hbad : ∃ c ∈ cells, ∃ s, c = Cell.str s ∧ pyIntParse s = none) :
    fixDecimalCol k cells = .error PyError.valueError := by
  unfold fixDecimalCol
  rw [intList_valueError cells hstr hbad]

end Ipumspy


namespace Ipumspy

theorem pure_bind_except {α β : Type} (a : α) (f : α → Except PyError β) :
    (pure a : Except PyError α) >>= f = f a := rfl

theorem error_bind_except {α β : Type} (e : PyError) (f : α → Except PyError β) :
    (Except.error e : Except PyError α) >>= f = Except.error e := rfl

theorem ok_bind_except {α β : Type} (a : α) (f : α → Except PyError β) :
    (Except.ok a : Except PyError α) >>= f = f a := rfl

theorem find?_append_of_none {α : Type} {p : α → Bool} {l₁ l₂ : List α}
    (h : ∀ a ∈ l₁, p a = false) : (l₁ ++ l₂).find? p = l₂.find? p := by
  induction l₁ with
  | nil => rfl
  | cons a l ih =>
    have hpa : p a = false := h a (by simp)
    rw [List.cons_append]
    simp only [List.find?, hpa]
    exact ih (fun a ha => h a (by simp [ha]))

theorem map_id_of_eq {α : Type} {f : α → α} {l : List α}
    (h : ∀ a ∈ l, f a = a) : l.map f = l := by
  induction l with
  | nil => rfl
  | cons a l ih =>
    rw [List.map_cons, h a (by simp), ih (fun a ha => h a (by simp [ha]))]

theorem setColFloat_split (pre : Frame) (c0 : Col)
    (rest : Frame) (nm : String) (cells' : List Cell)
    (hpre : ∀ c ∈ pre, (c.name == nm) = false)
    (hc0 : (c0.name == nm) = true)
    (htail : ∀ c ∈ rest, (c.name == nm) = false) :
    setColFloat (pre ++ c0 :: rest) nm cells' =
      pre ++ ({ name := c0.name, dtype := Dtype.float64, cells := cells' } :: rest) := by
  unfold setColFloat
  rw [List.map_append, List.map_cons]
  rw [map_id_of_eq (fun c hc => by simp [hpre c hc]),
    map_id_of_eq (fun c hc => by simp [htail c hc])]
  rw [if_pos hc0]

theorem fde_cons (v : VariableDescription) (ds : List VariableDescription)
    (F : Frame) :
    fix_decimal_expansion (v :: ds) F =
      fdeStep F v >>= fun F' => fix_decimal_expansion ds F' := by
  unfold fix_decimal_expansion
  rw [List.foldlM_cons]

theorem fde_gen (ds : List VariableDescription) (pre : Frame)
    (g : VariableDescription → Col)
    (hg : ∀ d, (g d).name = d.name)
    (hpre : ∀ c ∈ pre, ∀ v ∈ ds, c.name ≠ v.name)
    (hnodup : (ds.map (·.name)).Nodup) :
    fix_decimal_expansion ds (pre ++ ds.map g) =
      Except.map (fun cols => pre ++ cols)
        (ds.mapM (fun d => processDecimalCol d (g d))) := by
  induction ds generalizing pre with
  | nil =>
    rw [List.mapM_nil]
    simp [fix_decimal_expansion, Except.map, pure, Except.pure]
  | cons v ds ih =>
    have hvname : ((g v).name == v.name) = true := by simp [hg v]
    have htailne : ∀ d ∈ ds, ((g d).name == v.name) = false := by
      intro d hd
      have hne : d.name ≠ v.name := by
        intro he
        rw [List.map_cons] at hnodup
        exact (List.nodup_cons.mp hnodup).1 (he ▸ List.mem_map_of_mem (·.name) hd)
      simp [hg d, hne]
    have hprene : ∀ c ∈ pre, (c.name == v.name) = false := by
      intro c hc
      simp [hpre c hc v (by simp)]
    have hnodup' : (ds.map (·.name)).Nodup := by
      rw [List.map_cons] at hnodup
      exact (List.nodup_cons.mp hnodup).2
    have hpre' : ∀ (c0 : Col), (c0.name == v.name) = true →
        ∀ c ∈ pre ++ [c0], ∀ w ∈ ds, c.name ≠ w.name := by
      intro c0 hc0 c hc w hw
      rcases List.mem_append.mp hc with hcp | hcl
      · exact hpre c hcp w (by simp [hw])
      · have hcc : c = c0 := by simpa using hcl
        subst hcc
        intro he
        have hb := htailne w hw
        rw [hg w, ← he, hc0] at hb
        exact Bool.noConfusion hb
    rw [List.map_cons, fde_cons, List.mapM_cons]
    rcases hvs : v.shift with _ | k
    · have hstep : fdeStep (pre ++ g v :: ds.map g) v = pure (pre ++ g v :: ds.map g) := by
        simp [fdeStep, hvs]
      rw [hstep, pure_bind_except]
      have hproc : processDecimalCol v (g v) = .ok (g v) := by
        simp [processDecimalCol, hvs]
      rw [hproc, ok_bind_except]
      rw [show pre ++ g v :: ds.map g = (pre ++ [g v]) ++ ds.map g by simp]
      rw [ih (pre ++ [g v]) (hpre' (g v) hvname) hnodup']
      cases hm : ds.mapM (fun d => processDecimalCol d (g d)) with
      | error e => simp [Except.map, hm, Bind.bind, Except.bind]
      | ok cs => simp [Except.map, hm, Bind.bind, Except.bind, pure, Except.pure]
    · by_cases hk : 0 < k
      · have hfind : ((pre ++ g v :: ds.map g).find? (fun c => c.name == v.name)) = some (g v) := by
          rw [find?_append_of_none hprene]
          simp only [List.find?, hvname]
        have hstep : fdeStep (pre ++ g v :: ds.map g) v =
            fixDecimalCol k.toNat (g v).cells >>= fun cells' =>
              pure (setColFloat (pre ++ g v :: ds.map g) v.name cells') := by
          simp [fdeStep, hvs, hk, hfind]
        rw [hstep]
        cases he : fixDecimalCol k.toNat (g v).cells with
        | error e =>
          have hproc : processDecimalCol v (g v) = .error e := by
            simp [processDecimalCol, hvs, hk, he, Except.map]
          rw [hproc, error_bind_except, error_bind_except, error_bind_except]
          simp [Except.map]
        | ok cells' =>
          have hproc : processDecimalCol v (g v) =
              .ok { name := (g v).name, dtype := Dtype.float64, cells := cells' } := by
            simp [processDecimalCol, hvs, hk, he, Except.map]
          rw [hproc, ok_bind_except, ok_bind_except, pure_bind_except]
          rw [setColFloat_split pre (g v) (ds.map g) v.name cells' hprene hvname
            (fun c hc => by
              obtain ⟨d, hd, rfl⟩ := List.mem_map.mp hc
              exact htailne d hd)]
          rw [show pre ++ { name := (g v).name, dtype := Dtype.float64, cells := cells' } :: ds.map g =
            (pre ++ [{ name := (g v).name, dtype := Dtype.float64, cells := cells' }]) ++ ds.map g by simp]
          rw [ih (pre ++ [{ name := (g v).name, dtype := Dtype.float64, cells := cells' }])
            (hpre' _ hvname) hnodup']
          cases hm : ds.mapM (fun d => processDecimalCol d (g d)) with
          | error e => simp [Except.map, hm, Bind.bind, Except.bind]
          | ok cs => simp [Except.map, hm, Bind.bind, Except.bind, pure, Except.pure]
      · have hstep : fdeStep (pre ++ g v :: ds.map g) v = pure (pre ++ g v :: ds.map g) := by
          simp [fdeStep, hvs, hk]
        rw [hstep, pure_bind_except]
        have hproc : processDecimalCol v (g v) = .ok (g v) := by
          simp [processDecimalCol, hvs, hk]
        rw [hproc, ok_bind_except]
        rw [show pre ++ g v :: ds.map g = (pre ++ [g v]) ++ ds.map g by simp]
        rw [ih (pre ++ [g v]) (hpre' (g v) hvname) hnodup']
        cases hm : ds.mapM (fun d => processDecimalCol d (g d)) with
        | error e => simp [Except.map, hm, Bind.bind, Except.bind]
        | ok cs => simp [Except.map, hm, Bind.bind, Except.bind, pure, Except.pure]

end Ipumspy

namespace Ipumspy

theorem ffd_id (dtype : DtypeMap) (F : Frame)
    (h : ∀ c ∈ F, alookup dtype c.name = some Dtype.int64N →
      int64CastOk c.cells = true) :
    fix_float_dtypes dtype F = dtype := by
  unfold fix_float_dtypes
  induction F with
  | nil => rfl
  | cons c cs ih =>
    rw [List.foldl_cons]
    have hstep : ffdStep dtype c = dtype := by
      unfold ffdStep
      by_cases ha : alookup dtype c.name = some Dtype.int64N
      · simp [ha, h c (by simp) ha]
      · simp [ha]
    rw [hstep]
    exact ih (fun c hc => h c (by simp [hc]))

theorem mapM_ok_of_eq {α β : Type} {f : α → Except PyError β} {g : α → β}
    (l : List α) (h : ∀ a ∈ l, f a = .ok (g a)) : l.mapM f = .ok (l.map g) := by
  induction l with
  | nil => rfl
  | cons a as ih =>
    rw [List.mapM_cons, h a (by simp), ok_bind_except,
      ih (fun a ha => h a (by simp [ha])), ok_bind_except]
    rfl

theorem mapM_map_ok {α β γ : Type} {f : β → Except PyError γ} {g : α → β}
    {h : α → γ} (l : List α) (hh : ∀ a ∈ l, f (g a) = .ok (h a)) :
    (l.map g).mapM f = .ok (l.map h) := by
  induction l with
  | nil => rfl
  | cons a as ih =>
    rw [List.map_cons, List.mapM_cons, hh a (by simp), ok_bind_except,
      ih (fun a ha => hh a (by simp [ha])), ok_bind_except]
    rfl

theorem astypeCol_ok {d : Dtype} {c : Col} {g : Cell → Cell}
    (h : ∀ x ∈ c.cells, astypeCell d x = .ok (g x)) :
    astypeCol d c = .ok { name := c.name, dtype := d, cells := c.cells.map g } := by
  unfold astypeCol
  rw [mapM_ok_of_eq _ h, ok_bind_except]
  rfl

theorem alookup_cons (nm : String) (t : Dtype) (rest : DtypeMap) (k : String) :
    alookup ((nm, t) :: rest) k = if nm = k then some t else alookup rest k := by
  unfold alookup
  by_cases he : nm = k
  · simp [List.find?, he]
  · have hb : (nm == k) = false := by simp [he]
    simp [List.find?, hb, he]

theorem alookup_default (descs : List VariableDescription)
    (d : VariableDescription) (hd : d ∈ descs)
    (hnodup : (descs.map (·.name)).Nodup) :
    alookup (defaultDtype descs) d.name = some d.pandas_type := by
  induction descs with
  | nil => simp at hd
  | cons d0 ds ih =>
    rw [defaultDtype, List.map_cons, alookup_cons]
    rcases List.mem_cons.mp hd with rfl | hd'
    · simp
    · have hne : d0.name ≠ d.name := by
        intro he
        rw [List.map_cons] at hnodup
        exact (List.nodup_cons.mp hnodup).1 (he ▸ List.mem_map_of_mem (·.name) hd')
      rw [if_neg hne]
      exact ih hd' (by
        rw [List.map_cons] at hnodup
        exact (List.nodup_cons.mp hnodup).2)

theorem goodDecode_mono {descs : List VariableDescription}
    {L L' : List String} (h : goodDecode descs L) (hsub : ∀ l ∈ L', l ∈ L) :
    goodDecode descs L' := by
  obtain ⟨h0, h1, h2, h3⟩ := h
  exact ⟨h0, h1,
    fun d hd hp l hl => h2 d hd hp l (hsub l hl),
    fun d hd hp l hl => h3 d hd hp l (hsub l hl)⟩

end Ipumspy

namespace Ipumspy

theorem pandas_type_int64 {d : VariableDescription}
    (h : d.pandas_type = Dtype.int64N) :
    d.vartype = "numeric" ∧ (d.shift = none ∨ d.shift = some 0) := by
  unfold VariableDescription.pandas_type at h
  split_ifs at h with h1 h2
  exact ⟨h1, h2⟩

theorem pandas_type_float64 {d : VariableDescription}
    (h : d.pandas_type = Dtype.float64) :
    d.vartype = "numeric" ∧ ¬(d.shift = none ∨ d.shift = some 0) := by
  unfold VariableDescription.pandas_type at h
  split_ifs at h with h1 h2
  exact ⟨h1, h2⟩

theorem pandas_type_stringD {d : VariableDescription}
    (h : d.pandas_type = Dtype.stringD) : ¬ d.vartype = "numeric" := by
  unfold VariableDescription.pandas_type at h
  split_ifs at h with h1 h2
  exact h1

theorem pandas_type_ne_float64N (d : VariableDescription) :
    d.pandas_type ≠ Dtype.float64N := by
  unfold VariableDescription.pandas_type
  split_ifs <;> simp

theorem midCell_of_unshifted {d : VariableDescription}
    (h : d.shift = none ∨ d.shift = some 0) (s : String) :
    midCell d s = strCellOf s := by
  rcases h with h | h <;> simp [midCell, h]

theorem fde_readFwf (descs : List VariableDescription) (lines : List String)
    (hnodup : (descs.map (·.name)).Nodup)
    (h2 : ∀ d ∈ descs, 0 < shiftOf d → ∀ l ∈ lines, goodIntField (fieldStr l d)) :
    fix_decimal_expansion descs (readFwfStr descs lines) =
      .ok (midFrame descs lines) := by
  have hproc : ∀ d ∈ descs, processDecimalCol d
      { name := d.name, dtype := Dtype.stringD,
        cells := lines.map (fun l => strCellOf (fieldStr l d)) } =
      .ok { name := d.name, dtype := midColDtype d,
            cells := lines.map (fun l => midCell d (fieldStr l d)) } := by
    intro d hd
    rcases hs : d.shift with _ | k
    · simp only [processDecimalCol, hs]
      have hdt : midColDtype d = Dtype.stringD := by simp [midColDtype, hs]
      have hcellf : (fun l => midCell d (fieldStr l d)) =
          fun l => strCellOf (fieldStr l d) :=
        funext fun l => midCell_of_unshifted (Or.inl hs) _
      rw [hdt, hcellf]
    · by_cases hk : 0 < k
      · simp only [processDecimalCol, hs]
        rw [if_pos hk]
        have hcells : ∀ c ∈ lines.map (fun l => strCellOf (fieldStr l d)),
            c = Cell.null ∨ ∃ s n, c = Cell.str s ∧ pyIntParse s = some n := by
          intro c hc
          obtain ⟨l, hl, rfl⟩ := List.mem_map.mp hc
          have hsp : 0 < shiftOf d := by simp [shiftOf, hs, hk]
          have hgf : goodIntField (fieldStr l d) := h2 d hd hsp l hl
          unfold strCellOf
          rcases hgf with hg | hg
          · simp [hg]
          · by_cases hf : fieldStr l d = ""
            · simp [hf]
            · obtain ⟨n, hn⟩ := Option.isSome_iff_exists.mp hg
              simp only [if_neg hf]
              exact Or.inr ⟨fieldStr l d, n, rfl, hn⟩
        show Except.map _ (fixDecimalCol k.toNat (lines.map (fun l => strCellOf (fieldStr l d)))) = _
        rw [fixDecimalCol_good _ _ hcells]
        have hdt : midColDtype d = Dtype.float64 := by simp [midColDtype, hs, hk]
        have hcellf : (lines.map (fun l => strCellOf (fieldStr l d))).map
            (goodDecCell k.toNat) = lines.map (fun l => midCell d (fieldStr l d)) := by
          rw [List.map_map]
          exact List.map_congr_left fun l hl => by simp [Function.comp, midCell, hs, hk]
        simp only [Except.map]
        rw [hdt, ← hcellf]
      · simp only [processDecimalCol, hs]
        rw [if_neg hk]
        have hdt : midColDtype d = Dtype.stringD := by simp [midColDtype, hs, hk]
        have hcellf : (fun l => midCell d (fieldStr l d)) =
            fun l => strCellOf (fieldStr l d) :=
          funext fun l => by simp [midCell, hs, hk]
        rw [hdt, hcellf]
  have hfwf : readFwfStr descs lines = [] ++ descs.map (fun d =>
      { name := d.name, dtype := Dtype.stringD,
        cells := lines.map (fun l => strCellOf (fieldStr l d)) }) := rfl
  rw [hfwf, fde_gen descs [] _ (fun d => rfl) (by simp) hnodup,
    mapM_ok_of_eq descs hproc]
  simp [Except.map, midFrame]

end Ipumspy

namespace Ipumspy

theorem castOk_of_good {d : VariableDescription} {lines : List String}
    (hsh : d.shift = none ∨ d.shift = some 0)
    (hg : ∀ l ∈ lines, goodIntField (fieldStr l d)) :
    int64CastOk (lines.map (fun l => midCell d (fieldStr l d))) = true := by
  unfold int64CastOk
  rw [List.all_eq_true]
  intro c hcmem
  obtain ⟨l, hl, rfl⟩ := List.mem_map.mp hcmem
  rw [midCell_of_unshifted hsh]
  have hgf := hg l hl
  unfold strCellOf
  by_cases hf : fieldStr l d = ""
  · simp [hf]
  · rcases hgf with hgf | hgf
    · exact absurd hgf hf
    · simp [hf, hgf]

theorem ffd_mid (descs : List VariableDescription) (lines : List String)
    (hnodup : (descs.map (·.name)).Nodup)
    (h1 : ∀ d ∈ descs, d.pandas_type = Dtype.int64N →
      ∀ l ∈ lines, goodIntField (fieldStr l d)) :
    fix_float_dtypes (defaultDtype descs) (midFrame descs lines) =
      defaultDtype descs := by
  apply ffd_id
  intro c hc hlook
  obtain ⟨d, hd, rfl⟩ := List.mem_map.mp hc
  have halo := alookup_default descs d hd hnodup
  have hpt : d.pandas_type = Dtype.int64N := by
    have hl2 : alookup (defaultDtype descs) d.name = some Dtype.int64N := hlook
    rw [halo] at hl2
    injection hl2
  obtain ⟨hnum, hsh⟩ := pandas_type_int64 hpt
  exact castOk_of_good hsh (h1 d hd hpt)

theorem astypeCell_mid (d : VariableDescription) (s : String)
    (hnum : 0 < shiftOf d → d.vartype = "numeric")
    (hkge : ∀ k, d.shift = some k → 0 ≤ k)
    (hint : d.pandas_type = Dtype.int64N → goodIntField s) :
    astypeCell d.pandas_type (midCell d s) = .ok (decodeCellGood d s) := by
  cases hpt : d.pandas_type with
  | int64N =>
    obtain ⟨hn, hsh⟩ := pandas_type_int64 hpt
    rw [midCell_of_unshifted hsh]
    simp only [decodeCellGood, hpt]
    unfold strCellOf
    by_cases hf : s = ""
    · simp [hf, astypeCell]
    · rcases hint hpt with hgf | hgf
      · exact absurd hgf hf
      · obtain ⟨n, hpn⟩ := Option.isSome_iff_exists.mp hgf
        simp [hf, astypeCell, hpn]
  | float64 =>
    obtain ⟨hn, hsh⟩ := pandas_type_float64 hpt
    rcases hsopt : d.shift with _ | k
    · exact absurd (Or.inl hsopt) hsh
    · have hk0 : k ≠ 0 := by
        intro hh
        exact hsh (Or.inr (by rw [hsopt, hh]))
      have hk : 0 < k := lt_of_le_of_ne (hkge k hsopt) (Ne.symm hk0)
      simp only [midCell, hsopt, if_pos hk]
      simp only [decodeCellGood, hpt, hsopt]
      by_cases hf : s = ""
      · simp [hf, strCellOf, goodDecCell, astypeCell]
      · simp only [strCellOf, if_neg hf]
        rcases hp : pyIntParse s with _ | n
        · simp [goodDecCell, hp, astypeCell, hf]
        · simp [goodDecCell, hp, astypeCell, hf]
  | float64N => exact absurd hpt (pandas_type_ne_float64N d)
  | stringD =>
    have hnn := pandas_type_stringD hpt
    have hmid : midCell d s = strCellOf s := by
      rcases hsopt : d.shift with _ | k
      · simp [midCell, hsopt]
      · by_cases hk : 0 < k
        · refine absurd (hnum ?_) hnn
          simp [shiftOf, hsopt]
          exact hk
        · simp [midCell, hsopt, hk]
    rw [hmid]
    simp only [decodeCellGood, hpt]
    unfold strCellOf
    by_cases hf : s = "" <;> simp [hf, astypeCell]

theorem astype_mid (descs : List VariableDescription) (lines : List String)
    (hnodup : (descs.map (·.name)).Nodup)
    (hgood : goodDecode descs lines) :
    astypeFrame (defaultDtype descs) (midFrame descs lines) =
      .ok (goodFrame descs lines) := by
  obtain ⟨h0, h1, h2, h3⟩ := hgood
  unfold astypeFrame midFrame goodFrame
  apply mapM_map_ok
  intro d hd
  simp only [alookup_default descs d hd hnodup]
  unfold astypeCol
  rw [mapM_map_ok lines (fun l hl =>
    astypeCell_mid d (fieldStr l d) (h1 d hd) (h0 d hd)
      (fun hpt => h2 d hd hpt l hl)), ok_bind_except]
  rfl

theorem readFrames_char (descs : List VariableDescription)
    (chunks : List (List String))
    (hnodup : (descs.map (·.name)).Nodup)
    (hgood : goodDecode descs chunks.flatten) :
    readFrames descs (defaultDtype descs) chunks =
      .ok (chunks.map (fun ch => goodFrame descs ch)) := by
  induction chunks with
  | nil => rfl
  | cons ch rest ih =>
    have hgch : goodDecode descs ch :=
      goodDecode_mono hgood (fun l hl => by simp [List.flatten_cons, hl])
    have hgrest : goodDecode descs rest.flatten :=
      goodDecode_mono hgood (fun l hl => by
        rw [List.flatten_cons]
        exact List.mem_append_right _ hl)
    rw [readFrames, fde_readFwf descs ch hnodup hgch.2.2.2, ok_bind_except,
      ffd_mid descs ch hnodup hgch.2.2.1,
      astype_mid descs ch hnodup hgch, ok_bind_except,
      ih hgrest, ok_bind_except, List.map_cons]
    rfl

end Ipumspy

namespace Ipumspy

theorem flatten_singleton {α : Type} (l : List α) :
    ([l] : List (List α)).flatten = l := by
  simp

end Ipumspy

namespace Ipumspy

theorem read_microdata_of_iter (cb : Codebook) (subset : Option (List String))
    (dtypeArg : Option DtypeMap) (lines : List String) (f : Frame)
    (hstruct : cb.file_description.structure_ ≠ "hierarchical")
    (h : readMicrodataIter cb.data_description subset dtypeArg [lines] = .ok [f]) :
    read_microdata cb subset dtypeArg lines = .ok f := by
  unfold read_microdata
  rw [if_neg hstruct, h]

theorem readMicrodataIter_char (descs : List VariableDescription)
    (chunks : List (List String))
    (hnodup : (descs.map (·.name)).Nodup)
    (hgood : goodDecode descs chunks.flatten) :
    readMicrodataIter descs none none chunks =
      .ok (chunks.map (fun ch => goodFrame descs ch)) :=
  readFrames_char descs chunks hnodup hgood

/-- Claim C7: in a well-formed fixed-width decode, every declared-numeric
column with positive decimal shift `k` decodes each raw field to the field
parsed as an integer divided by `10^k`, at numpy-float type. -/
theorem decimal_shift_value_c7 (cb : Codebook) (lines : List String)
    (d : VariableDescription) (k : Int)
    (hstruct : cb.file_description.structure_ ≠ "hierarchical")
    (hnodup : ((cb.data_description).map (·.name)).Nodup)
    (hgood : goodDecode cb.data_description lines)
    (hd : d ∈ cb.data_description)
    (hnum : d.vartype = "numeric") (hs : d.shift = some k) (hk : 0 < k)
    (hfields : ∀ l ∈ lines, (pyIntParse (fieldStr l d)).isSome) :
    read_microdata cb none none lines = .ok (goodFrame cb.data_description lines) ∧
    { name := d.name, dtype := Dtype.float64,
      cells := lines.map (fun l =>
        Cell.float (((pyIntParse (fieldStr l d)).getD 0 : ℚ) / (10 : ℚ) ^ k.toNat)) }
      ∈ goodFrame cb.data_description lines := by
  have hpt : d.pandas_type = Dtype.float64 := by
    unfold VariableDescription.pandas_type
    rw [if_pos hnum, if_neg]
    rintro (hh | hh) <;> rw [hs] at hh
    · exact Option.noConfusion hh
    · injection hh with hh
      omega
  constructor
  · apply read_microdata_of_iter _ _ _ _ _ hstruct
    rw [readMicrodataIter_char cb.data_description [lines] hnodup
      (goodDecode_mono hgood (fun l hl => by rw [flatten_singleton] at hl; exact hl))]
    rfl
  · have hcol : ({ name := d.name, dtype := d.pandas_type,
                   cells := lines.map (fun l => decodeCellGood d (fieldStr l d)) } : Col)
        ∈ goodFrame cb.data_description lines := by
      unfold goodFrame
      exact List.mem_map_of_mem _ hd
    have heq : ({ name := d.name, dtype := d.pandas_type,
                  cells := lines.map (fun l => decodeCellGood d (fieldStr l d)) } : Col) =
        { name := d.name, dtype := Dtype.float64,
          cells := lines.map (fun l =>
            Cell.float (((pyIntParse (fieldStr l d)).getD 0 : ℚ) / (10 : ℚ) ^ k.toNat)) } := by
      rw [hpt]
      congr 1
      refine List.map_congr_left (fun l hl => ?_)
      obtain ⟨n, hn⟩ := Option.isSome_iff_exists.mp (hfields l hl)
      have hne : fieldStr l d ≠ "" := by
        intro hz
        rw [hz] at hn
        exact Option.noConfusion hn
      simp only [decodeCellGood, hpt, hs, if_neg hne, hn, Option.getD_some]
    rw [← heq]
    exact hcol

/-- Checked instance of the C7 theorem: shift 2 and raw field `"01234"`
decode to exactly 12.34. -/
theorem decimal_shift_value_c7_witness :
    read_microdata cbShift2 none none ["01234"] =
      .ok [{ name := "W", dtype := Dtype.float64,
             cells := [Cell.float (12.34 : ℚ)] }] := by
  have hgood : goodDecode cbShift2.data_description ["01234"] :=
    ⟨by decide, by decide, by decide, by decide⟩
  have h := (decimal_shift_value_c7 cbShift2 ["01234"] vdShift2 2
    (by decide) (by decide) hgood (by decide) (by decide) (by decide)
    (by decide) (by decide)).1
  rw [h]
  have hf : fieldStr "01234" vdShift2 = "01234" := by decide
  have hp : pyIntParse "01234" = some 1234 := by decide
  have hpt : vdShift2.pandas_type = Dtype.float64 := by decide
  have hsh : vdShift2.shift = some 2 := by decide
  congr 1
  simp only [goodFrame, cbShift2, singleVarCodebook, List.map_cons, List.map_nil,
    decodeCellGood, hf, hp, hpt, hsh, if_neg (show ¬("01234" = "") by decide)]
  have hq : ((1234 : Int) : ℚ) / 10 ^ Int.toNat 2 = (12.34 : ℚ) := by
    simp
    norm_num
  rw [hq]
  rfl

end Ipumspy


namespace Ipumspy

theorem fde_single_unshifted (d : VariableDescription) (F : Frame)
    (hsh : d.shift = none ∨ d.shift = some 0) :
    fix_decimal_expansion [d] F = .ok F := by
  unfold fix_decimal_expansion
  rw [List.foldlM_cons]
  have hstep : fdeStep F d = pure F := by
    rcases hsh with h | h <;> simp [fdeStep, h]
  rw [hstep, pure_bind_except, List.foldlM_nil]
  rfl

theorem castOk_false_of_bad (d : VariableDescription) (lines : List String)
    (l : String) (hl : l ∈ lines) (hne : fieldStr l d ≠ "")
    (hpn : pyIntParse (fieldStr l d) = none) :
    int64CastOk (lines.map (fun l => strCellOf (fieldStr l d))) = false := by
  apply Bool.eq_false_iff.mpr
  intro hall
  unfold int64CastOk at hall
  have hcell := List.all_eq_true.mp hall (strCellOf (fieldStr l d))
    (List.mem_map_of_mem _ hl)
  simp [strCellOf, if_neg hne, hpn] at hcell

theorem astypeCell_float_str (s : String)
    (h : s = "" ∨ (pyFloatParse s).isSome) :
    astypeCell Dtype.float64N (strCellOf s) = .ok (floatCellOfField s) := by
  by_cases hf : s = ""
  · subst hf
    rfl
  · rcases h with h | h
    · exact absurd h hf
    · obtain ⟨q, hq⟩ := Option.isSome_iff_exists.mp h
      simp [strCellOf, floatCellOfField, if_neg hf, astypeCell, hq]

/-- Claim C4: a declared-numeric column without decimal shift whose raw
fields do not all cast losslessly to nullable integers has its resolved type
downgraded to nullable float for the entire column (every parseable field,
integer-looking ones included, decoding as a float, blanks as missing),
while a column all of whose fields cast losslessly keeps the nullable
integer type. -/
theorem float_downgrade_c4 (d : VariableDescription) (lines : List String)
    (hnum : d.vartype = "numeric")
    (hsh : d.shift = none ∨ d.shift = some 0) :
    ((∃ l ∈ lines, fieldStr l d ≠ "" ∧ pyIntParse (fieldStr l d) = none) →
      (∀ l ∈ lines, fieldStr l d = "" ∨ (pyFloatParse (fieldStr l d)).isSome) →
      read_microdata (singleVarCodebook d) none none lines =
        .ok [{ name := d.name, dtype := Dtype.float64N,
               cells := lines.map (fun l => floatCellOfField (fieldStr l d)) }])
    ∧ ((∀ l ∈ lines, goodIntField (fieldStr l d)) →
      read_microdata (singleVarCodebook d) none none lines =
        .ok [{ name := d.name, dtype := Dtype.int64N,
               cells := lines.map (fun l => intCellOfField (fieldStr l d)) }]) := by
  have hpt : d.pandas_type = Dtype.int64N := by
    unfold VariableDescription.pandas_type
    rw [if_pos hnum, if_pos hsh]
  have hstruct : (singleVarCodebook d).file_description.structure_ ≠ "hierarchical" := by
    intro h
    exact absurd h (by simp [singleVarCodebook])
  constructor
  · rintro ⟨l, hl, hne, hpn⟩ hflt
    apply read_microdata_of_iter _ _ _ _ _ hstruct
    show readFrames [d] (defaultDtype [d]) [lines] = _
    rw [readFrames, fde_single_unshifted d _ hsh, ok_bind_except]
    have hffd : fix_float_dtypes (defaultDtype [d]) (readFwfStr [d] lines) =
        [(d.name, Dtype.float64N)] := by
      unfold fix_float_dtypes readFwfStr
      rw [List.map_cons, List.map_nil, List.foldl_cons, List.foldl_nil]
      unfold ffdStep
      rw [if_pos (by
        show alookup (defaultDtype [d]) _ = _
        rw [show (defaultDtype [d]) = [(d.name, d.pandas_type)] from rfl, alookup_cons,
          if_pos rfl, hpt])]
      rw [if_neg (by
        rw [castOk_false_of_bad d lines l hl hne hpn]
        exact Bool.false_ne_true)]
      show aupdate [(d.name, d.pandas_type)] d.name Dtype.float64N = _
      simp [aupdate]
    rw [hffd]
    have hast : astypeFrame [(d.name, Dtype.float64N)] (readFwfStr [d] lines) =
        .ok [{ name := d.name, dtype := Dtype.float64N,
               cells := lines.map (fun l => floatCellOfField (fieldStr l d)) }] := by
      unfold astypeFrame readFwfStr
      rw [List.map_cons, List.map_nil, List.mapM_cons]
      have halo : alookup [(d.name, Dtype.float64N)] d.name = some Dtype.float64N := by
        rw [alookup_cons, if_pos rfl]
      have hcol : astypeCol Dtype.float64N
          ({ name := d.name, dtype := Dtype.stringD,
             cells := lines.map (fun l => strCellOf (fieldStr l d)) } : Col) =
          .ok { name := d.name, dtype := Dtype.float64N,
                cells := lines.map (fun l => floatCellOfField (fieldStr l d)) } := by
        unfold astypeCol
        rw [show ({ name := d.name, dtype := Dtype.stringD,
                    cells := lines.map (fun l => strCellOf (fieldStr l d)) } : Col).cells =
              lines.map (fun l => strCellOf (fieldStr l d)) from rfl,
          mapM_map_ok lines (fun a ha => astypeCell_float_str (fieldStr a d) (hflt a ha)),
          ok_bind_except]
        rfl
      rw [show ({ name := d.name, dtype := Dtype.stringD,
                  cells := lines.map (fun l => strCellOf (fieldStr l d)) } : Col).name =
            d.name from rfl]
      simp only [halo, hcol, ok_bind_except, List.mapM_nil, pure_bind_except]
      rfl
    rw [hast, ok_bind_except,
      show readFrames [d] [(d.name, Dtype.float64N)] [] = .ok [] from rfl,
      ok_bind_except]
    rfl
  · intro hInt
    have hcell : ∀ s, decodeCellGood d s = intCellOfField s := by
      intro s
      unfold decodeCellGood intCellOfField
      rw [hpt]
    have hgood : goodDecode [d] ([lines]).flatten := by
      rw [show ([lines]).flatten = lines by simp]
      refine ⟨?_, ?_, ?_, ?_⟩
      · rintro d' hd' k hk
        rw [List.mem_singleton] at hd'
        subst hd'
        rcases hsh with h | h
        · rw [h] at hk
          cases hk
        · rw [h] at hk
          injection hk with hk
          omega
      · intro d' hd' _
        rw [List.mem_singleton] at hd'
        subst hd'
        exact hnum
      · intro d' hd' _ l hl
        rw [List.mem_singleton] at hd'
        subst hd'
        exact hInt l hl
      · intro d' hd' hpos
        rw [List.mem_singleton] at hd'
        subst hd'
        exfalso
        rcases hsh with h | h <;> simp [shiftOf, h] at hpos
    apply read_microdata_of_iter _ _ _ _ _ hstruct
    show readMicrodataIter [d] none none [lines] = _
    rw [readMicrodataIter_char [d] [lines] (by simp) hgood]
    simp only [List.map_cons, List.map_nil, goodFrame, hpt, hcell]

theorem float_downgrade_c4_witness :
    (∃ l ∈ (["1  ", "2  ", "3.5"] : List String),
      fieldStr l vdPlain ≠ "" ∧ pyIntParse (fieldStr l vdPlain) = none) ∧
    read_microdata (singleVarCodebook vdPlain) none none ["1  ", "2  ", "3.5"] =
      .ok [{ name := "V", dtype := Dtype.float64N,
             cells := [Cell.float 1, Cell.float 2, Cell.float (3.5 : ℚ)] }] := by
  refine ⟨⟨"3.5", by decide, by decide, by decide⟩, ?_⟩
  have h := (float_downgrade_c4 vdPlain ["1  ", "2  ", "3.5"] (by decide)
      (Or.inl (by decide))).1
    ⟨"3.5", by decide, by decide, by decide⟩ (by decide)
  rw [h]
  have hc1 : floatCellOfField (fieldStr "1  " vdPlain) = Cell.float 1 := by
    rw [show fieldStr "1  " vdPlain = "1" from by decide]
    simp [floatCellOfField,
      pyFloatParse_of_int (show pyIntParse "1" = some 1 from by decide)]
  have hc2 : floatCellOfField (fieldStr "2  " vdPlain) = Cell.float 2 := by
    rw [show fieldStr "2  " vdPlain = "2" from by decide]
    simp [floatCellOfField,
      pyFloatParse_of_int (show pyIntParse "2" = some 2 from by decide)]
  have hc3 : floatCellOfField (fieldStr "3.5" vdPlain) = Cell.float (3.5 : ℚ) := by
    rw [show fieldStr "3.5" vdPlain = "3.5" from by decide]
    have hp3 : pyFloatParse "3.5" =
        some (((3 : Nat) : ℚ) + ((5 : Nat) : ℚ) / (10 : ℚ) ^ (1 : Nat)) := rfl
    simp [floatCellOfField, hp3]
    norm_num
  simp only [List.map_cons, List.map_nil]
  rw [hc1, hc2, hc3]
  rfl

/-- The spec claims a non-numeric field of a positive-shift column decodes to
missing with the rest of the batch intact; in the source the `ValueError`
from `astype(int)` is not caught (only `TypeError` is), so the whole batch
fails. -/
theorem decimal_garbage_c5_counterexample :
    read_microdata cbShift2 none none ["ab   "] = .error PyError.valueError := by
  decide

/-- Claim C5, corrected: for a declared-numeric column with positive decimal
shift, a batch whose fields are all non-blank and contain one unparsable
field fails entirely with `ValueError`; only a blank (missing) first field
raises the caught `TypeError`, and then the coercing fallback decodes every
unparsable field of the column to `0.0`, not to a missing value. -/
theorem decimal_garbage_c5 (d : VariableDescription) (lines : List String)
    (k : Int) (hsh : d.shift = some k) (hk : 0 < k)
    (hnum : d.vartype = "numeric") :
    ((∀ l ∈ lines, fieldStr l d ≠ "") →
      (∃ l ∈ lines, pyIntParse (fieldStr l d) = none) →
      read_microdata (singleVarCodebook d) none none lines =
        .error PyError.valueError)
    ∧ (∀ l0 ls, lines = l0 :: ls → fieldStr l0 d = "" →
      read_microdata (singleVarCodebook d) none none lines =
        .ok [{ name := d.name, dtype := Dtype.float64,
               cells := coercedDecimalCells d k.toNat lines }]) := by
  have hstruct : ¬(singleVarCodebook d).file_description.structure_ = "hierarchical" := by
    intro h
    exact absurd h (by simp [singleVarCodebook])
  have hfind : (((readFwfStr [d] lines).find?
      (fun c => c.name == d.name)).map Col.cells) =
      some (lines.map (fun l => strCellOf (fieldStr l d))) := by
    simp [readFwfStr, List.find?]
  constructor
  · intro hne hbad
    unfold read_microdata
    rw [if_neg hstruct]
    have hiter : readMicrodataIter (singleVarCodebook d).data_description
        none none [lines] = .error PyError.valueError := by
      show readFrames [d] (defaultDtype [d]) [lines] = _
      rw [readFrames]
      have hstep : fdeStep (readFwfStr [d] lines) d = .error PyError.valueError := by
        unfold fdeStep
        simp only [hsh, if_pos hk, hfind]
        have hstr : ∀ c ∈ lines.map (fun l => strCellOf (fieldStr l d)),
            ∃ s, c = Cell.str s := by
          intro c hc
          obtain ⟨l, hl, rfl⟩ := List.mem_map.mp hc
          exact ⟨fieldStr l d, by simp [strCellOf, if_neg (hne l hl)]⟩
        have hbad' : ∃ c ∈ lines.map (fun l => strCellOf (fieldStr l d)),
            ∃ s, c = Cell.str s ∧ pyIntParse s = none := by
          obtain ⟨l, hl, hpn⟩ := hbad
          exact ⟨strCellOf (fieldStr l d), List.mem_map_of_mem _ hl,
            fieldStr l d, by simp [strCellOf, if_neg (hne l hl)], hpn⟩
        rw [fixDecimalCol_valueError k.toNat _ hstr hbad', error_bind_except]
      rw [fde_cons, hstep, error_bind_except, error_bind_except]
    rw [hiter]
  · rintro l0 ls rfl hblank
    have hptF : d.pandas_type = Dtype.float64 := by
      unfold VariableDescription.pandas_type
      rw [if_pos hnum, if_neg ?_]
      rintro (h | h)
      · rw [hsh] at h
        cases h
      · rw [hsh] at h
        injection h with h
        omega
    unfold read_microdata
    rw [if_neg hstruct]
    have hcells : (l0 :: ls).map (fun l => strCellOf (fieldStr l d)) =
        Cell.null :: ls.map (fun l => strCellOf (fieldStr l d)) := by
      rw [List.map_cons]
      congr 1
      simp [strCellOf, hblank]
    have hcol : ({ name := d.name, dtype := Dtype.float64,
                   cells := coercedDecimalCells d k.toNat (l0 :: ls) } : Col) =
        { name := d.name, dtype := Dtype.float64,
          cells := ((l0 :: ls).map (fun l => strCellOf (fieldStr l d))).map
            (coerceDecimalCell k.toNat) } := by
      simp [coercedDecimalCells, List.map_map, Function.comp]
    have hiter : readMicrodataIter (singleVarCodebook d).data_description
        none none [l0 :: ls] =
        .ok [[{ name := d.name, dtype := Dtype.float64,
                cells := coercedDecimalCells d k.toNat (l0 :: ls) }]] := by
      show readFrames [d] (defaultDtype [d]) [l0 :: ls] = _
      rw [readFrames]
      have hstep : fdeStep (readFwfStr [d] (l0 :: ls)) d =
          .ok [{ name := d.name, dtype := Dtype.float64,
                 cells := coercedDecimalCells d k.toNat (l0 :: ls) }] := by
        unfold fdeStep
        simp only [hsh, if_pos hk, hfind]
        have hfix : fixDecimalCol k.toNat
            ((l0 :: ls).map (fun l => strCellOf (fieldStr l d))) =
            .ok (((l0 :: ls).map (fun l => strCellOf (fieldStr l d))).map
              (coerceDecimalCell k.toNat)) := by
          unfold fixDecimalCol
          rw [hcells]
          rw [show intListOfCells (Cell.null ::
              ls.map (fun l => strCellOf (fieldStr l d))) =
              .error PyError.typeError from rfl]
        rw [hfix, ok_bind_except]
        have hset : setColFloat (readFwfStr [d] (l0 :: ls)) d.name
            (((l0 :: ls).map (fun l => strCellOf (fieldStr l d))).map
              (coerceDecimalCell k.toNat)) =
            [{ name := d.name, dtype := Dtype.float64,
               cells := ((l0 :: ls).map (fun l => strCellOf (fieldStr l d))).map
                 (coerceDecimalCell k.toNat) }] := by
          simp [setColFloat, readFwfStr]
        rw [hset, hcol]
        rfl
      rw [fde_cons, hstep, ok_bind_except,
        show fix_decimal_expansion []
            ([{ name := d.name, dtype := Dtype.float64,
                cells := coercedDecimalCells d k.toNat (l0 :: ls) }] : Frame) =
          .ok [{ name := d.name, dtype := Dtype.float64,
                 cells := coercedDecimalCells d k.toNat (l0 :: ls) }] from rfl,
        ok_bind_except]
      have hffd : fix_float_dtypes (defaultDtype [d])
          ([{ name := d.name, dtype := Dtype.float64,
              cells := coercedDecimalCells d k.toNat (l0 :: ls) }] : Frame) =
          defaultDtype [d] := by
        unfold fix_float_dtypes
        rw [List.foldl_cons, List.foldl_nil]
        unfold ffdStep
        rw [if_neg ?_]
        rw [show ({ name := d.name, dtype := Dtype.float64,
                    cells := coercedDecimalCells d k.toNat (l0 :: ls) } : Col).name =
            d.name from rfl,
          show defaultDtype [d] = [(d.name, d.pandas_type)] from rfl,
          alookup_cons, if_pos rfl, hptF]
        intro h
        cases h
      rw [hffd]
      have hce : ∀ x ∈ coercedDecimalCells d k.toNat (l0 :: ls),
          astypeCell Dtype.float64 x = .ok x := by
        intro x hx
        obtain ⟨l, hl, rfl⟩ := List.mem_map.mp hx
        rcases strCellOf (fieldStr l d) with _ | s | n | q
        · rfl
        · rcases hq : pyFloatParse s with _ | q <;>
            simp [coerceDecimalCell, hq, astypeCell]
        · rfl
        · rfl
      have hast : astypeFrame (defaultDtype [d])
          ([{ name := d.name, dtype := Dtype.float64,
              cells := coercedDecimalCells d k.toNat (l0 :: ls) }] : Frame) =
          .ok [{ name := d.name, dtype := Dtype.float64,
                 cells := coercedDecimalCells d k.toNat (l0 :: ls) }] := by
        unfold astypeFrame
        rw [List.mapM_cons]
        rw [show ({ name := d.name, dtype := Dtype.float64,
                    cells := coercedDecimalCells d k.toNat (l0 :: ls) } : Col).name =
            d.name from rfl]
        have halo : alookup (defaultDtype [d]) d.name = some d.pandas_type := by
          rw [show defaultDtype [d] = [(d.name, d.pandas_type)] from rfl,
            alookup_cons, if_pos rfl]
        simp only [halo, hptF]
        rw [astypeCol_ok (g := id) (by simpa using hce), List.mapM_nil,
          ok_bind_except, pure_bind_except]
        simp [List.map_id]
        rfl
      rw [hast, ok_bind_except,
        show readFrames [d] (defaultDtype [d]) [] = .ok [] from rfl,
        ok_bind_except]
      rfl
    rw [hiter]

theorem decimal_garbage_c5_witness :
    read_microdata (singleVarCodebook vdShift2) none none ["     ", "ab   "] =
      .ok [{ name := "W", dtype := Dtype.float64,
             cells := [Cell.float 0, Cell.float 0] }] := by
  have h := (decimal_garbage_c5 vdShift2 ["     ", "ab   "] 2 rfl (by decide)
      (by decide)).2 "     " ["ab   "] rfl (by decide)
  rw [h]
  rfl

theorem schemaOf_goodFrame (descs : List VariableDescription)
    (lines : List String) :
    schemaOf (goodFrame descs lines) =
      descs.map (fun d => (d.name, d.pandas_type)) := by
  unfold schemaOf goodFrame
  rw [List.map_map]
  rfl

theorem concat2_goodFrame (descs : List VariableDescription)
    (a b : List String) :
    concat2 (goodFrame descs a) (goodFrame descs b) = goodFrame descs (a ++ b) := by
  unfold concat2 goodFrame
  rw [List.zipWith_map, List.zipWith_same]
  refine List.map_congr_left (fun d hd => ?_)
  simp [List.map_append]

theorem foldl_concat2_goodFrame (descs : List VariableDescription)
    (a : List String) (chs : List (List String)) :
    (chs.map (goodFrame descs)).foldl concat2 (goodFrame descs a) =
      goodFrame descs (a ++ chs.flatten) := by
  induction chs generalizing a with
  | nil =>
    rw [List.map_nil, List.foldl_nil, List.flatten_nil, List.append_nil]
  | cons ch chs ih =>
    rw [List.map_cons, List.foldl_cons, concat2_goodFrame, ih,
      List.flatten_cons, List.append_assoc]

theorem concatFrames_goodFrame (descs : List VariableDescription)
    (c : List String) (cs : List (List String)) :
    concatFrames ((c :: cs).map (goodFrame descs)) =
      goodFrame descs (c :: cs).flatten := by
  rw [List.map_cons]
  show (cs.map (goodFrame descs)).foldl concat2 (goodFrame descs c) = _
  rw [foldl_concat2_goodFrame, List.flatten_cons]

/-- The resolved schema is not inspected once before the chunk stream: the
shared dtype dict is refined chunk by chunk, so an early all-integer chunk
keeps the nullable-integer dtype while a later chunk with a float field is
downgraded, and the chunked decode then disagrees with the single-shot
decode on both schema and cells. -/
theorem chunk_invariance_c1_counterexample :
    ∃ f0 f1 g,
      read_microdata_chunked cbPlain none none [["1  "], ["3.5"]] = .ok [f0, f1] ∧
      read_microdata cbPlain none none ["1  ", "3.5"] = .ok g ∧
      schemaOf f0 ≠ schemaOf f1 ∧
      concatFrames [f0, f1] ≠ g := by
  refine ⟨[{ name := "V", dtype := Dtype.int64N, cells := [Cell.int 1] }],
    [{ name := "V", dtype := Dtype.float64N, cells := [Cell.float (3.5 : ℚ)] }],
    [{ name := "V", dtype := Dtype.float64N,
       cells := [Cell.float 1, Cell.float (3.5 : ℚ)] }], ?_, ?_, ?_, ?_⟩
  · have h1 : read_microdata_chunked cbPlain none none [["1  "], ["3.5"]] =
        .ok [[{ name := "V", dtype := Dtype.int64N, cells := [Cell.int 1] }],
             [{ name := "V", dtype := Dtype.float64N,
                cells := [Cell.float (((3 : Nat) : ℚ) +
                  ((5 : Nat) : ℚ) / (10 : ℚ) ^ (1 : Nat))] }]] := rfl
    rw [h1]
    have hv : (((3 : Nat) : ℚ) + ((5 : Nat) : ℚ) / (10 : ℚ) ^ (1 : Nat)) =
        (3.5 : ℚ) := by
      norm_num
    rw [hv]
  · have h2 : read_microdata cbPlain none none ["1  ", "3.5"] =
        .ok [{ name := "V", dtype := Dtype.float64N,
               cells := [Cell.float ((1 : Nat) : ℚ),
                 Cell.float (((3 : Nat) : ℚ) +
                   ((5 : Nat) : ℚ) / (10 : ℚ) ^ (1 : Nat))] }] := rfl
    rw [h2]
    have hv : (((3 : Nat) : ℚ) + ((5 : Nat) : ℚ) / (10 : ℚ) ^ (1 : Nat)) =
        (3.5 : ℚ) := by
      norm_num
    have h1 : ((1 : Nat) : ℚ) = (1 : ℚ) := by
      norm_num
    rw [hv, h1]
  · decide
  · intro h
    have := congrArg (fun f => (f.head?.map Col.dtype)) h
    simp [concatFrames, concat2] at this

/-- Claim C1, corrected: on well-formed inputs (every declared-integer and
positive-shift field blank or parseable in every chunk) the chunked and
single-shot decodes agree: each chunk carries the same resolved schema as
the single-shot frame and their in-order concatenation equals it.  Without
that hypothesis the shared dtype dict is refined per chunk and the
invariance fails (see the counterexample). -/
theorem chunk_invariance_c1 (cb : Codebook) (c : List String)
    (cs : List (List String))
    (hstruct : cb.file_description.structure_ ≠ "hierarchical")
    (hnodup : ((cb.data_description).map (·.name)).Nodup)
    (hgood : goodDecode cb.data_description (c :: cs).flatten) :
    ∃ fs g,
      read_microdata_chunked cb none none (c :: cs) = .ok fs ∧
      read_microdata cb none none (c :: cs).flatten = .ok g ∧
      (∀ f ∈ fs, schemaOf f = schemaOf g) ∧
      concatFrames fs = g := by
  refine ⟨(c :: cs).map (goodFrame cb.data_description),
    goodFrame cb.data_description (c :: cs).flatten, ?_, ?_, ?_, ?_⟩
  · show readMicrodataIter cb.data_description none none (c :: cs) = _
    exact readMicrodataIter_char _ _ hnodup hgood
  · unfold read_microdata
    rw [if_neg hstruct]
    have hgood1 : goodDecode cb.data_description ([(c :: cs).flatten]).flatten := by
      rw [show ([(c :: cs).flatten]).flatten = (c :: cs).flatten by simp]
      exact hgood
    rw [readMicrodataIter_char _ _ hnodup hgood1]
    rfl
  · intro f hf
    obtain ⟨ch, hch, rfl⟩ := List.mem_map.mp hf
    rw [schemaOf_goodFrame, schemaOf_goodFrame]
  · exact concatFrames_goodFrame _ _ _

theorem chunk_invariance_c1_witness :
    ∃ fs g,
      read_microdata_chunked cbPlain none none [["1  "], ["2  "]] = .ok fs ∧
      read_microdata cbPlain none none ([["1  "], ["2  "]]).flatten = .ok g ∧
      (∀ f ∈ fs, schemaOf f = schemaOf g) ∧
      concatFrames fs = g :=
  chunk_invariance_c1 cbPlain ["1  "] [["2  "]] (by decide) (by decide)
    ⟨by decide, by decide, by decide, by decide⟩

end Ipumspy

namespace Ipumspy

theorem astypeCell_nrt (d : Dtype) (c : Cell) :
    ∀ e, astypeCell d c = .error e → e ≠ PyError.valueErrorRectype := by
  intro e h
  unfold astypeCell at h
  split at h <;> (try split at h) <;>
    first
      | (injection h with he; subst he; decide)
      | exact Except.noConfusion h

theorem intList_nrt (cells : List Cell) :
    ∀ e, intListOfCells cells = .error e → e ≠ PyError.valueErrorRectype := by
  induction cells with
  | nil =>
    intro e h
    exact Except.noConfusion h
  | cons c cs ih =>
    intro e h
    have hstep : intListOfCells (c :: cs) = (match c with
        | Cell.null => Except.error PyError.typeError
        | Cell.str s => (match pyIntParse s with
          | some n => Except.ok n
          | none => Except.error PyError.valueError)
        | Cell.int n => Except.ok n
        | Cell.float q => Except.ok (ratTrunc q)) >>= fun n =>
        intListOfCells cs >>= fun ns => pure (n :: ns) := by
      cases c <;> rfl
    rw [hstep] at h
    refine errIn_bind (P := fun e => e ≠ PyError.valueErrorRectype)
      (fun e' h' => ?_) (fun n => errIn_bind ih
      (fun ns e' h' => absurd h' pure_not_err)) e h
    split at h' <;> (try split at h') <;>
      first
        | (injection h' with he; subst he; decide)
        | exact Except.noConfusion h'

theorem fixDecimalCol_nrt (k : Nat) (cells : List Cell) :
    ∀ e, fixDecimalCol k cells = .error e → e ≠ PyError.valueErrorRectype := by
  intro e h
  unfold fixDecimalCol at h
  split at h
  · exact Except.noConfusion h
  · exact Except.noConfusion h
  · injection h with he
    subst he
    exact intList_nrt cells _ (by assumption)

theorem fdeStep_nrt (F : Frame) (v : VariableDescription) :
    ∀ e, fdeStep F v = .error e → e ≠ PyError.valueErrorRectype := by
  intro e h
  unfold fdeStep at h
  split at h
  · split at h
    · split at h
      · exact errIn_bind (fixDecimalCol_nrt _ _)
          (fun cells' e' h' => absurd h' pure_not_err) e h
      · exact absurd h pure_not_err
    · exact absurd h pure_not_err
  · exact absurd h pure_not_err

theorem fde_nrt (descs : List VariableDescription) (F : Frame) :
    ∀ e, fix_decimal_expansion descs F = .error e →
      e ≠ PyError.valueErrorRectype := by
  intro e h
  exact errIn_foldlM descs F (fun b' a _ e' h' => fdeStep_nrt b' a e' h') e h

theorem astypeCol_nrt (d : Dtype) (c : Col) :
    ∀ e, astypeCol d c = .error e → e ≠ PyError.valueErrorRectype := by
  intro e h
  unfold astypeCol at h
  exact errIn_bind (errIn_mapM c.cells (fun a _ => astypeCell_nrt d a))
    (fun cells e' h' => absurd h' pure_not_err) e h

theorem astypeFrame_nrt (m : DtypeMap) (f : Frame) :
    ∀ e, astypeFrame m f = .error e → e ≠ PyError.valueErrorRectype := by
  intro e h
  unfold astypeFrame at h
  refine errIn_mapM (P := fun e => e ≠ PyError.valueErrorRectype) f
    (fun c _ e' h' => ?_) e h
  split at h'
  · exact astypeCol_nrt _ _ _ h'
  · exact absurd h' pure_not_err

theorem readFrames_nrt (descs : List VariableDescription) (dtype : DtypeMap)
    (chunks : List (List String)) :
    ∀ e, readFrames descs dtype chunks = .error e →
      e ≠ PyError.valueErrorRectype := by
  induction chunks generalizing dtype with
  | nil =>
    intro e h
    exact Except.noConfusion h
  | cons ch rest ih =>
    intro e h
    rw [readFrames] at h
    exact errIn_bind (fde_nrt descs _) (fun df2 =>
      errIn_bind (astypeFrame_nrt _ _) (fun f =>
        errIn_bind (ih _) (fun fs e' h' => absurd h' pure_not_err))) e h

theorem readMicrodataIter_nrt (dd : List VariableDescription)
    (subset : Option (List String)) (dtypeArg : Option DtypeMap)
    (chunks : List (List String)) :
    ∀ e, readMicrodataIter dd subset dtypeArg chunks = .error e →
      e ≠ PyError.valueErrorRectype := by
  intro e h
  exact readFrames_nrt _ _ chunks e h

theorem filterByRectype_nrt (f : Frame) (rt : String) :
    ∀ e, filterByRectype f rt = .error e → e ≠ PyError.valueErrorRectype := by
  intro e h
  unfold filterByRectype at h
  split at h
  · injection h with he
    subst he
    decide
  · exact Except.noConfusion h

theorem get_common_vars_nrt (dd : List VariableDescription) :
    ∀ e, get_common_vars dd = .error e → e ≠ PyError.valueErrorRectype := by
  intro e h
  unfold get_common_vars at h
  split at h
  · injection h with he
    subst he
    decide
  · exact Except.noConfusion h

theorem buildDfDict_nrt (ddi : Codebook) (dd : List VariableDescription)
    (dtypeArg : Option DtypeMap) (lines : List String)
    (commonVars : List String) (allRectypes : List String) :
    ∀ e, buildDfDict ddi dd dtypeArg lines commonVars allRectypes = .error e →
      e ≠ PyError.valueErrorRectype := by
  intro e h
  unfold buildDfDict at h
  refine errIn_foldlM (P := fun e => e ≠ PyError.valueErrorRectype)
    allRectypes [] (fun acc rt _ e' h' => ?_) e h
  dsimp only [] at h'
  cases dtypeArg with
  | none =>
    split at h'
    · exact absurd h' pure_not_err
    · exact errIn_bind (readMicrodataIter_nrt _ _ _ _) (fun fs =>
        errIn_bind (filterByRectype_nrt _ _) (fun filtered =>
          errIn_bind (astypeFrame_nrt _ _)
            (fun af e'' h'' => absurd h'' pure_not_err))) e' h'
  | some dm =>
    split at h'
    · exact absurd h' pure_not_err
    · exact errIn_bind (readMicrodataIter_nrt _ _ _ _) (fun fs =>
        errIn_bind (filterByRectype_nrt _ _) (fun filtered =>
          errIn_bind (astypeFrame_nrt _ _)
            (fun af e'' h'' => absurd h'' pure_not_err))) e' h'

theorem nullifyCol_nrt (df : Frame) (rt col : String) (m : DtypeMap) :
    ∀ e, nullifyCol df rt col m = .error e → e ≠ PyError.valueErrorRectype := by
  intro e h
  unfold nullifyCol at h
  dsimp only [] at h
  simp only [pure_bind_except] at h
  split at h
  · split at h
    · split at h
      · split at h
        · split at h
          · exact errIn_bind (errIn_mapM _ (fun a _ => astypeCell_nrt _ a))
              (fun cells2 e'' h'' => absurd h'' pure_not_err) e h
          · have h2 : (Except.error PyError.keyError : Except PyError Frame) =
                Except.error e := h
            injection h2 with he
            subst he
            decide
        · exact errIn_bind (errIn_mapM _ (fun a _ => astypeCell_nrt _ a))
            (fun cells2 e'' h'' => absurd h'' pure_not_err) e h
        · exact errIn_bind (errIn_mapM _ (fun a _ => astypeCell_nrt _ a))
            (fun cells2 e'' h'' => absurd h'' pure_not_err) e h
      · have h2 : (Except.error PyError.keyError : Except PyError Frame) =
            Except.error e := h
        injection h2 with he
        subst he
        decide
    · have h2 : (Except.error PyError.keyError : Except PyError Frame) =
          Except.error e := h
      injection h2 with he
      subst he
      decide
  · have h2 : (Except.error PyError.keyError : Except PyError Frame) =
        Except.error e := h
    injection h2 with he
    subst he
    decide

theorem hierUnifiedNulling_nrt (df : Frame) (dfDict : List (String × Frame))
    (dd : List VariableDescription) (dtypeArg : Option DtypeMap)
    (commonVars : List String) :
    ∀ e, hierUnifiedNulling df dfDict dd dtypeArg commonVars = .error e →
      e ≠ PyError.valueErrorRectype := by
  intro e h
  unfold hierUnifiedNulling at h
  refine errIn_foldlM (P := fun e => e ≠ PyError.valueErrorRectype)
    dfDict df (fun df' p _ e' h' => ?_) e h
  dsimp only [] at h'
  exact errIn_foldlM _ df' (fun df'' col _ e'' h'' =>
    nullifyCol_nrt df'' p.1 col _ e'' h'') e' h'

theorem astypeCommonCol_nrt (df : Frame) (col : String) (m : DtypeMap) :
    ∀ e, astypeCommonCol df col m = .error e → e ≠ PyError.valueErrorRectype := by
  intro e h
  unfold astypeCommonCol at h
  dsimp only [] at h
  simp only [pure_bind_except] at h
  split at h
  · split at h
    · exact errIn_bind (errIn_mapM _ (fun a _ => astypeCell_nrt _ a))
        (fun cells e' h' => absurd h' pure_not_err) e h
    · have h2 : (Except.error PyError.keyError : Except PyError Frame) =
          Except.error e := h
      injection h2 with he
      subst he
      decide
  · have h2 : (Except.error PyError.keyError : Except PyError Frame) =
        Except.error e := h
    injection h2 with he
    subst he
    decide

theorem readHierBody_nrt (ddi : Codebook) (dd : List VariableDescription)
    (subset : Option (List String)) (dtypeArg : Option DtypeMap)
    (asDict : Bool) (lines : List String) :
    ∀ e, readHierBody ddi dd subset dtypeArg asDict lines = .error e →
      e ≠ PyError.valueErrorRectype := by
  intro e h
  unfold readHierBody at h
  split at h
  · injection h with he
    subst he
    decide
  · dsimp only [] at h
    simp only [pure_bind_except] at h
    refine errIn_bind (P := fun e => e ≠ PyError.valueErrorRectype)
      (get_common_vars_nrt dd) (fun commonVars e' h' => ?_) e h
    split at h'
    · have h2 : (Except.error PyError.indexError : Except PyError HierOutput) =
          Except.error e' := h'
      injection h2 with he
      subst he
      decide
    · refine errIn_bind (P := fun e => e ≠ PyError.valueErrorRectype)
        (buildDfDict_nrt _ _ _ _ _ _) (fun dfDict e'' h'' => ?_) e' h'
      split at h''
      · exact absurd h'' pure_not_err
      · exact errIn_bind (readMicrodataIter_nrt _ _ _ _) (fun fs =>
          errIn_bind (hierUnifiedNulling_nrt _ _ _ _ _) (fun df2 =>
            errIn_bind (errIn_foldlM _ df2 (fun f col _ e3 h3 =>
              astypeCommonCol_nrt f col _ e3 h3))
              (fun df3 e3 h3 => absurd h3 pure_not_err))) e'' h''

end Ipumspy

namespace Ipumspy

/-- Claim C6: on any codebook, hierarchical decode with an explicit subset
omitting RECTYPE fails with the RECTYPE-subset `ValueError` regardless of the
data lines (the guard runs before any row is touched); with a subset
containing RECTYPE, or with no subset, that error is never raised. -/
theorem rectype_subset_guard_c6 (ddi : Codebook) (dtypeArg : Option DtypeMap)
    (asDict : Bool) :
    (∀ l : List String, l.contains "RECTYPE" = false →
      ∀ lines, read_hierarchical_microdata ddi (some l) dtypeArg asDict lines =
        .error PyError.valueErrorRectype)
    ∧ (∀ l : List String, l.contains "RECTYPE" = true →
      ∀ lines, read_hierarchical_microdata ddi (some l) dtypeArg asDict lines ≠
        .error PyError.valueErrorRectype)
    ∧ (∀ lines, read_hierarchical_microdata ddi none dtypeArg asDict lines ≠
        .error PyError.valueErrorRectype) := by
  refine ⟨?_, ?_, ?_⟩
  · intro l hl lines
    rw [read_hierarchical_microdata, if_neg (by rw [hl]; exact Bool.false_ne_true)]
  · intro l hl lines h
    rw [read_hierarchical_microdata] at h
    rw [hl, if_pos rfl] at h
    exact readHierBody_nrt _ _ _ _ _ _ _ h rfl
  · intro lines h
    rw [read_hierarchical_microdata] at h
    exact readHierBody_nrt _ _ _ _ _ _ _ h rfl

theorem rectype_subset_guard_c6_witness :
    read_hierarchical_microdata cbShift2 (some ["A"]) none true ["x"] =
      .error PyError.valueErrorRectype ∧
    read_hierarchical_microdata cbShift2 (some ["A", "RECTYPE"]) none true ["x"] ≠
      .error PyError.valueErrorRectype ∧
    read_hierarchical_microdata cbShift2 none none true ["x"] ≠
      .error PyError.valueErrorRectype :=
  ⟨(rectype_subset_guard_c6 cbShift2 none true).1 ["A"] (by decide) ["x"],
   (rectype_subset_guard_c6 cbShift2 none true).2.1 ["A", "RECTYPE"] (by decide) ["x"],
   (rectype_subset_guard_c6 cbShift2 none true).2.2 ["x"]⟩

end Ipumspy

namespace Ipumspy

theorem astypeCell_str_strCellOf (s : String) :
    astypeCell Dtype.stringD (strCellOf s) = .ok (strCellOf s) := by
  by_cases h : s = "" <;> simp [strCellOf, h, astypeCell]

theorem fde_id_of_noshift (descs : List VariableDescription) (F : Frame)
    (h : ∀ d ∈ descs, d.shift = none) :
    fix_decimal_expansion descs F = .ok F := by
  induction descs with
  | nil => rfl
  | cons d ds ih =>
    rw [fde_cons]
    have hstep : fdeStep F d = pure F := by
      simp [fdeStep, h d (by simp)]
    rw [hstep, pure_bind_except, ih (fun d' hd' => h d' (by simp [hd']))]

theorem ffd_id_of_nonint (dtype : DtypeMap) (f : Frame)
    (h : ∀ c ∈ f, alookup dtype c.name ≠ some Dtype.int64N) :
    fix_float_dtypes dtype f = dtype := by
  unfold fix_float_dtypes
  induction f with
  | nil => rfl
  | cons c cs ih =>
    rw [List.foldl_cons]
    have hstep : ffdStep dtype c = dtype := by
      unfold ffdStep
      rw [if_neg (h c (by simp))]
    rw [hstep, ih (fun c' hc' => h c' (by simp [hc']))]

theorem alookup_map_const (names : List String) (k : String) (t : Dtype)
    (hk : k ∈ names) :
    alookup (names.map (fun v => (v, t))) k = some t := by
  induction names with
  | nil => simp at hk
  | cons n ns ih =>
    rw [List.map_cons, alookup_cons]
    by_cases he : n = k
    · rw [if_pos he]
    · rw [if_neg he]
      exact ih (by rcases List.mem_cons.mp hk with h | h
                   · exact absurd h.symm he
                   · exact h)

theorem astypeFrame_str (dtype : DtypeMap) (descs : List VariableDescription)
    (lines : List String)
    (h : ∀ d ∈ descs, alookup dtype d.name = some Dtype.stringD) :
    astypeFrame dtype (readFwfStr descs lines) = .ok (readFwfStr descs lines) := by
  unfold astypeFrame readFwfStr
  refine mapM_map_ok descs (fun d hd => ?_)
  have hlook : alookup dtype
      ({ name := d.name, dtype := Dtype.stringD,
         cells := lines.map (fun l => strCellOf (fieldStr l d)) } : Col).name =
      some Dtype.stringD := h d hd
  simp only [hlook]
  unfold astypeCol
  rw [show ({ name := d.name, dtype := Dtype.stringD,
              cells := lines.map (fun l => strCellOf (fieldStr l d)) } : Col).cells =
        lines.map (fun l => strCellOf (fieldStr l d)) from rfl,
    mapM_map_ok lines (fun l _ => astypeCell_str_strCellOf (fieldStr l d)),
    ok_bind_except]
  rfl

theorem readFrames_str (descs : List VariableDescription) (dtype : DtypeMap)
    (lines : List String)
    (hlook : ∀ d ∈ descs, alookup dtype d.name = some Dtype.stringD)
    (hsh : ∀ d ∈ descs, d.shift = none) :
    readFrames descs dtype [lines] = .ok [readFwfStr descs lines] := by
  rw [readFrames, fde_id_of_noshift descs _ hsh, ok_bind_except]
  have hnonint : ∀ c ∈ readFwfStr descs lines,
      alookup dtype c.name ≠ some Dtype.int64N := by
    intro c hc
    obtain ⟨d, hd, rfl⟩ := List.mem_map.mp hc
    rw [show ({ name := d.name, dtype := Dtype.stringD,
                cells := lines.map (fun l => strCellOf (fieldStr l d)) } : Col).name =
          d.name from rfl,
      hlook d hd]
    intro hco
    injection hco with hco
    cases hco
  rw [ffd_id_of_nonint dtype _ hnonint, astypeFrame_str dtype descs lines hlook,
    ok_bind_except, show readFrames descs dtype [] = .ok [] from rfl,
    ok_bind_except]
  rfl

end Ipumspy

namespace Ipumspy

theorem c2_filterH (cA0 cA1 cB0 cB1 : Cell) :
    filterByRectype
      [{ name := "RECTYPE", dtype := Dtype.stringD,
         cells := [Cell.str "H", Cell.str "P"] },
       { name := "A", dtype := Dtype.stringD, cells := [cA0, cA1] },
       { name := "B", dtype := Dtype.stringD, cells := [cB0, cB1] }] "H" =
      .ok [{ name := "RECTYPE", dtype := Dtype.stringD, cells := [Cell.str "H"] },
           { name := "A", dtype := Dtype.stringD, cells := [cA0] },
           { name := "B", dtype := Dtype.stringD, cells := [cB0] }] := rfl

theorem c2_filterP (cA0 cA1 cC0 cC1 : Cell) :
    filterByRectype
      [{ name := "RECTYPE", dtype := Dtype.stringD,
         cells := [Cell.str "H", Cell.str "P"] },
       { name := "A", dtype := Dtype.stringD, cells := [cA0, cA1] },
       { name := "C", dtype := Dtype.stringD, cells := [cC0, cC1] }] "P" =
      .ok [{ name := "RECTYPE", dtype := Dtype.stringD, cells := [Cell.str "P"] },
           { name := "A", dtype := Dtype.stringD, cells := [cA1] },
           { name := "C", dtype := Dtype.stringD, cells := [cC1] }] := rfl

theorem c2_ffdH (s : String) (hs : (pyIntParse s).isSome = true) (cA0 : Cell) :
    fix_float_dtypes
      [("RECTYPE", Dtype.stringD), ("A", Dtype.stringD), ("B", Dtype.int64N)]
      [{ name := "RECTYPE", dtype := Dtype.stringD, cells := [Cell.str "H"] },
       { name := "A", dtype := Dtype.stringD, cells := [cA0] },
       { name := "B", dtype := Dtype.stringD, cells := [Cell.str s] }] =
      [("RECTYPE", Dtype.stringD), ("A", Dtype.stringD), ("B", Dtype.int64N)] := by
  show List.foldl ffdStep _ _ = _
  rw [List.foldl_cons,
    show ffdStep [("RECTYPE", Dtype.stringD), ("A", Dtype.stringD), ("B", Dtype.int64N)]
        { name := "RECTYPE", dtype := Dtype.stringD, cells := [Cell.str "H"] } =
      [("RECTYPE", Dtype.stringD), ("A", Dtype.stringD), ("B", Dtype.int64N)] from rfl,
    List.foldl_cons,
    show ffdStep [("RECTYPE", Dtype.stringD), ("A", Dtype.stringD), ("B", Dtype.int64N)]
        { name := "A", dtype := Dtype.stringD, cells := [cA0] } =
      [("RECTYPE", Dtype.stringD), ("A", Dtype.stringD), ("B", Dtype.int64N)] from rfl,
    List.foldl_cons]
  unfold ffdStep
  rw [if_pos (show alookup
      [("RECTYPE", Dtype.stringD), ("A", Dtype.stringD), ("B", Dtype.int64N)]
      ({ name := "B", dtype := Dtype.stringD, cells := [Cell.str s] } : Col).name =
      some Dtype.int64N from rfl)]
  rw [if_pos (show int64CastOk
      ({ name := "B", dtype := Dtype.stringD, cells := [Cell.str s] } : Col).cells =
      true from by simp [int64CastOk, hs])]
  rw [List.foldl_nil]

theorem astypeFrame_nil (m : DtypeMap) : astypeFrame m [] = .ok [] := rfl

theorem astypeFrame_cons_some (m : DtypeMap) (c c' : Col) (cs cs' : Frame)
    (d : Dtype) (hm : alookup m c.name = some d) (hcol : astypeCol d c = .ok c')
    (hcs : astypeFrame m cs = .ok cs') :
    astypeFrame m (c :: cs) = .ok (c' :: cs') := by
  unfold astypeFrame at hcs ⊢
  rw [List.mapM_cons]
  simp only [hm, hcol, ok_bind_except]
  rw [hcs, ok_bind_except]
  rfl

theorem astypeCol_single (d : Dtype) (nm : String) (dt0 : Dtype) (c c' : Cell)
    (h : astypeCell d c = .ok c') :
    astypeCol d { name := nm, dtype := dt0, cells := [c] } =
      .ok { name := nm, dtype := d, cells := [c'] } := by
  unfold astypeCol
  rw [show ({ name := nm, dtype := dt0, cells := [c] } : Col).cells = [c] from rfl,
    List.mapM_cons, h, ok_bind_except, List.mapM_nil, pure_bind_except,
    pure_bind_except]
  rfl

theorem astypeCol_pair (d : Dtype) (nm : String) (dt0 : Dtype)
    (c1 c2 c1' c2' : Cell) (h1 : astypeCell d c1 = .ok c1')
    (h2 : astypeCell d c2 = .ok c2') :
    astypeCol d { name := nm, dtype := dt0, cells := [c1, c2] } =
      .ok { name := nm, dtype := d, cells := [c1', c2'] } := by
  unfold astypeCol
  rw [show ({ name := nm, dtype := dt0, cells := [c1, c2] } : Col).cells =
      [c1, c2] from rfl,
    List.mapM_cons, h1, ok_bind_except, List.mapM_cons, h2, ok_bind_except,
    List.mapM_nil, pure_bind_except, pure_bind_except, pure_bind_except]
  rfl

theorem c2_astH (s : String) (n : Int) (hs : pyIntParse s = some n) (cA0 : Cell)
    (hA : astypeCell Dtype.stringD cA0 = .ok cA0) :
    astypeFrame
      [("RECTYPE", Dtype.stringD), ("A", Dtype.stringD), ("B", Dtype.int64N)]
      [{ name := "RECTYPE", dtype := Dtype.stringD, cells := [Cell.str "H"] },
       { name := "A", dtype := Dtype.stringD, cells := [cA0] },
       { name := "B", dtype := Dtype.stringD, cells := [Cell.str s] }] =
      .ok [{ name := "RECTYPE", dtype := Dtype.stringD, cells := [Cell.str "H"] },
           { name := "A", dtype := Dtype.stringD, cells := [cA0] },
           { name := "B", dtype := Dtype.int64N, cells := [Cell.int n] }] := by
  refine astypeFrame_cons_some _ _ _ _ _ _ rfl (astypeCol_single _ _ _ _ _ rfl) ?_
  refine astypeFrame_cons_some _ _ _ _ _ _ rfl (astypeCol_single _ _ _ _ _ hA) ?_
  refine astypeFrame_cons_some _ _ _ _ _ _ rfl
    (astypeCol_single _ _ _ _ _ (by simp [astypeCell, hs])) ?_
  exact astypeFrame_nil _

theorem c2_astP (cA1 cC1 : Cell)
    (hA : astypeCell Dtype.stringD cA1 = .ok cA1)
    (hC : astypeCell Dtype.stringD cC1 = .ok cC1) :
    astypeFrame
      [("RECTYPE", Dtype.stringD), ("A", Dtype.stringD), ("C", Dtype.stringD)]
      [{ name := "RECTYPE", dtype := Dtype.stringD, cells := [Cell.str "P"] },
       { name := "A", dtype := Dtype.stringD, cells := [cA1] },
       { name := "C", dtype := Dtype.stringD, cells := [cC1] }] =
      .ok [{ name := "RECTYPE", dtype := Dtype.stringD, cells := [Cell.str "P"] },
           { name := "A", dtype := Dtype.stringD, cells := [cA1] },
           { name := "C", dtype := Dtype.stringD, cells := [cC1] }] := by
  refine astypeFrame_cons_some _ _ _ _ _ _ rfl (astypeCol_single _ _ _ _ _ rfl) ?_
  refine astypeFrame_cons_some _ _ _ _ _ _ rfl (astypeCol_single _ _ _ _ _ hA) ?_
  refine astypeFrame_cons_some _ _ _ _ _ _ rfl (astypeCol_single _ _ _ _ _ hC) ?_
  exact astypeFrame_nil _

theorem c2_iterH (l0 l1 : String) :
    readMicrodataIter [vdRectypeHP, vdA2, vdB2, vdC2v] (some ["RECTYPE", "A", "B"])
      (some [("RECTYPE", Dtype.stringD), ("A", Dtype.stringD), ("B", Dtype.stringD)])
      [[l0, l1]] =
      .ok [readFwfStr [vdRectypeHP, vdA2, vdB2] [l0, l1]] := by
  show readFrames [vdRectypeHP, vdA2, vdB2]
    [("RECTYPE", Dtype.stringD), ("A", Dtype.stringD), ("B", Dtype.stringD)]
    [[l0, l1]] = _
  refine readFrames_str _ _ _ ?_ ?_ <;> intro d hd <;> simp at hd <;>
    rcases hd with rfl | rfl | rfl <;> rfl

theorem c2_iterP (l0 l1 : String) :
    readMicrodataIter [vdRectypeHP, vdA2, vdB2, vdC2v] (some ["RECTYPE", "A", "C"])
      (some [("RECTYPE", Dtype.stringD), ("A", Dtype.stringD), ("C", Dtype.stringD)])
      [[l0, l1]] =
      .ok [readFwfStr [vdRectypeHP, vdA2, vdC2v] [l0, l1]] := by
  show readFrames [vdRectypeHP, vdA2, vdC2v]
    [("RECTYPE", Dtype.stringD), ("A", Dtype.stringD), ("C", Dtype.stringD)]
    [[l0, l1]] = _
  refine readFrames_str _ _ _ ?_ ?_ <;> intro d hd <;> simp at hd <;>
    rcases hd with rfl | rfl | rfl <;> rfl

theorem c2_iterAll (l0 l1 : String) :
    readMicrodataIter [vdRectypeHP, vdA2, vdB2, vdC2v] none
      (some [("RECTYPE", Dtype.stringD), ("A", Dtype.stringD),
             ("B", Dtype.stringD), ("C", Dtype.stringD)]) [[l0, l1]] =
      .ok [readFwfStr [vdRectypeHP, vdA2, vdB2, vdC2v] [l0, l1]] := by
  show readFrames [vdRectypeHP, vdA2, vdB2, vdC2v]
    [("RECTYPE", Dtype.stringD), ("A", Dtype.stringD),
     ("B", Dtype.stringD), ("C", Dtype.stringD)] [[l0, l1]] = _
  refine readFrames_str _ _ _ ?_ ?_ <;> intro d hd <;> simp at hd <;>
    rcases hd with rfl | rfl | rfl | rfl <;> rfl

theorem c2_fwfH (l0 l1 vA0 vA1 : String)
    (h0R : fieldStr l0 vdRectypeHP = "H") (h1R : fieldStr l1 vdRectypeHP = "P")
    (h0A : fieldStr l0 vdA2 = vA0) (h1A : fieldStr l1 vdA2 = vA1)
    (hA0 : vA0 ≠ "") (hA1 : vA1 ≠ "")
    (hfB0ne : fieldStr l0 vdB2 ≠ "") :
    readFwfStr [vdRectypeHP, vdA2, vdB2] [l0, l1] =
      [{ name := "RECTYPE", dtype := Dtype.stringD,
         cells := [Cell.str "H", Cell.str "P"] },
       { name := "A", dtype := Dtype.stringD,
         cells := [Cell.str vA0, Cell.str vA1] },
       { name := "B", dtype := Dtype.stringD,
         cells := [Cell.str (fieldStr l0 vdB2),
                   strCellOf (fieldStr l1 vdB2)] }] := by
  unfold readFwfStr
  simp only [List.map_cons, List.map_nil, h0R, h1R, h0A, h1A,
    show strCellOf "H" = Cell.str "H" from rfl,
    show strCellOf "P" = Cell.str "P" from rfl,
    show strCellOf vA0 = Cell.str vA0 from by simp [strCellOf, hA0],
    show strCellOf vA1 = Cell.str vA1 from by simp [strCellOf, hA1],
    show strCellOf (fieldStr l0 vdB2) = Cell.str (fieldStr l0 vdB2) from by
      simp [strCellOf, hfB0ne]]
  rfl

theorem c2_fwfP (l0 l1 vA0 vA1 vC1 : String)
    (h0R : fieldStr l0 vdRectypeHP = "H") (h1R : fieldStr l1 vdRectypeHP = "P")
    (h0A : fieldStr l0 vdA2 = vA0) (h1A : fieldStr l1 vdA2 = vA1)
    (hA0 : vA0 ≠ "") (hA1 : vA1 ≠ "")
    (h1C : fieldStr l1 vdC2v = vC1) :
    readFwfStr [vdRectypeHP, vdA2, vdC2v] [l0, l1] =
      [{ name := "RECTYPE", dtype := Dtype.stringD,
         cells := [Cell.str "H", Cell.str "P"] },
       { name := "A", dtype := Dtype.stringD,
         cells := [Cell.str vA0, Cell.str vA1] },
       { name := "C", dtype := Dtype.stringD,
         cells := [strCellOf (fieldStr l0 vdC2v), strCellOf vC1] }] := by
  unfold readFwfStr
  simp only [List.map_cons, List.map_nil, h0R, h1R, h0A, h1A, h1C,
    show strCellOf "H" = Cell.str "H" from rfl,
    show strCellOf "P" = Cell.str "P" from rfl,
    show strCellOf vA0 = Cell.str vA0 from by simp [strCellOf, hA0],
    show strCellOf vA1 = Cell.str vA1 from by simp [strCellOf, hA1]]
  rfl

theorem c2_fwfAll (l0 l1 vA0 vA1 vC1 : String)
    (h0R : fieldStr l0 vdRectypeHP = "H") (h1R : fieldStr l1 vdRectypeHP = "P")
    (h0A : fieldStr l0 vdA2 = vA0) (h1A : fieldStr l1 vdA2 = vA1)
    (hA0 : vA0 ≠ "") (hA1 : vA1 ≠ "")
    (hfB0ne : fieldStr l0 vdB2 ≠ "")
    (h1C : fieldStr l1 vdC2v = vC1) :
    readFwfStr [vdRectypeHP, vdA2, vdB2, vdC2v] [l0, l1] =
      [{ name := "RECTYPE", dtype := Dtype.stringD,
         cells := [Cell.str "H", Cell.str "P"] },
       { name := "A", dtype := Dtype.stringD,
         cells := [Cell.str vA0, Cell.str vA1] },
       { name := "B", dtype := Dtype.stringD,
         cells := [Cell.str (fieldStr l0 vdB2),
                   strCellOf (fieldStr l1 vdB2)] },
       { name := "C", dtype := Dtype.stringD,
         cells := [strCellOf (fieldStr l0 vdC2v), strCellOf vC1] }] := by
  unfold readFwfStr
  simp only [List.map_cons, List.map_nil, h0R, h1R, h0A, h1A, h1C,
    show strCellOf "H" = Cell.str "H" from rfl,
    show strCellOf "P" = Cell.str "P" from rfl,
    show strCellOf vA0 = Cell.str vA0 from by simp [strCellOf, hA0],
    show strCellOf vA1 = Cell.str vA1 from by simp [strCellOf, hA1],
    show strCellOf (fieldStr l0 vdB2) = Cell.str (fieldStr l0 vdB2) from by
      simp [strCellOf, hfB0ne]]
  rfl

theorem c2_buildDfDict (l0 l1 vA0 vA1 vC1 : String) (nB : Int)
    (h0R : fieldStr l0 vdRectypeHP = "H") (h1R : fieldStr l1 vdRectypeHP = "P")
    (h0A : fieldStr l0 vdA2 = vA0) (h1A : fieldStr l1 vdA2 = vA1)
    (hA0 : vA0 ≠ "") (hA1 : vA1 ≠ "")
    (h0B : pyIntParse (fieldStr l0 vdB2) = some nB)
    (h1C : fieldStr l1 vdC2v = vC1) :
    buildDfDict cbHier [vdRectypeHP, vdA2, vdB2, vdC2v] none [l0, l1]
      ["RECTYPE", "A"] ["H", "P"] =
      .ok [("H",
        [{ name := "RECTYPE", dtype := Dtype.stringD, cells := [Cell.str "H"] },
         { name := "A", dtype := Dtype.stringD, cells := [Cell.str vA0] },
         { name := "B", dtype := Dtype.int64N, cells := [Cell.int nB] }]),
        ("P",
        [{ name := "RECTYPE", dtype := Dtype.stringD, cells := [Cell.str "P"] },
         { name := "A", dtype := Dtype.stringD, cells := [Cell.str vA1] },
         { name := "C", dtype := Dtype.stringD, cells := [strCellOf vC1] }])] := by
  have hfB0ne : fieldStr l0 vdB2 ≠ "" := by
    intro hh
    rw [hh, show pyIntParse "" = none from rfl] at h0B
    exact Option.noConfusion h0B
  have h1 : get_rectype_vars "H" ["RECTYPE", "A"]
      [vdRectypeHP, vdA2, vdB2, vdC2v] = ["RECTYPE", "A", "B"] := rfl
  have h2 : get_rectype_vars "P" ["RECTYPE", "A"]
      [vdRectypeHP, vdA2, vdB2, vdC2v] = ["RECTYPE", "A", "C"] := rfl
  have hdd : cbHier.data_description = [vdRectypeHP, vdA2, vdB2, vdC2v] := rfl
  unfold buildDfDict
  rw [List.foldlM_cons]
  dsimp only []
  simp only [h1, List.map_cons, List.map_nil, hdd]
  rw [if_neg (by decide)]
  rw [c2_iterH l0 l1, ok_bind_except,
    show concatFrames [readFwfStr [vdRectypeHP, vdA2, vdB2] [l0, l1]] =
      readFwfStr [vdRectypeHP, vdA2, vdB2] [l0, l1] from rfl,
    c2_fwfH l0 l1 vA0 vA1 h0R h1R h0A h1A hA0 hA1 hfB0ne,
    c2_filterH (Cell.str vA0) (Cell.str vA1) (Cell.str (fieldStr l0 vdB2))
      (strCellOf (fieldStr l1 vdB2)),
    ok_bind_except,
    show pandasMapFor [vdRectypeHP, vdA2, vdB2, vdC2v] ["RECTYPE", "A", "B"] =
      [("RECTYPE", Dtype.stringD), ("A", Dtype.stringD), ("B", Dtype.int64N)]
      from rfl,
    c2_ffdH (fieldStr l0 vdB2) (by rw [h0B]; rfl) (Cell.str vA0),
    c2_astH (fieldStr l0 vdB2) nB h0B (Cell.str vA0) rfl,
    ok_bind_except, pure_bind_except]
  rw [List.foldlM_cons]
  simp only [h2, List.map_cons, List.map_nil, hdd]
  rw [if_neg (by decide)]
  rw [c2_iterP l0 l1, ok_bind_except,
    show concatFrames [readFwfStr [vdRectypeHP, vdA2, vdC2v] [l0, l1]] =
      readFwfStr [vdRectypeHP, vdA2, vdC2v] [l0, l1] from rfl,
    c2_fwfP l0 l1 vA0 vA1 vC1 h0R h1R h0A h1A hA0 hA1 h1C,
    c2_filterP (Cell.str vA0) (Cell.str vA1) (strCellOf (fieldStr l0 vdC2v))
      (strCellOf vC1),
    ok_bind_except,
    show pandasMapFor [vdRectypeHP, vdA2, vdB2, vdC2v] ["RECTYPE", "A", "C"] =
      [("RECTYPE", Dtype.stringD), ("A", Dtype.stringD), ("C", Dtype.stringD)]
      from rfl,
    show fix_float_dtypes
        [("RECTYPE", Dtype.stringD), ("A", Dtype.stringD), ("C", Dtype.stringD)]
        [{ name := "RECTYPE", dtype := Dtype.stringD, cells := [Cell.str "P"] },
         { name := "A", dtype := Dtype.stringD, cells := [Cell.str vA1] },
         { name := "C", dtype := Dtype.stringD, cells := [strCellOf vC1] }] =
      [("RECTYPE", Dtype.stringD), ("A", Dtype.stringD), ("C", Dtype.stringD)]
      from rfl,
    c2_astP (Cell.str vA1) (strCellOf vC1) rfl (astypeCell_str_strCellOf vC1),
    ok_bind_except, pure_bind_except, List.foldlM_nil]
  rfl

theorem c2_nullC (a0 a1 bs : String) (cB1 cC0 cC1 : Cell)
    (hC1 : astypeCell Dtype.stringD cC1 = .ok cC1) :
    nullifyCol
      [{ name := "RECTYPE", dtype := Dtype.stringD,
         cells := [Cell.str "H", Cell.str "P"] },
       { name := "A", dtype := Dtype.stringD,
         cells := [Cell.str a0, Cell.str a1] },
       { name := "B", dtype := Dtype.stringD, cells := [Cell.str bs, cB1] },
       { name := "C", dtype := Dtype.stringD, cells := [cC0, cC1] }]
      "H" "C" [("C", Dtype.stringD)] =
      .ok [{ name := "RECTYPE", dtype := Dtype.stringD,
             cells := [Cell.str "H", Cell.str "P"] },
           { name := "A", dtype := Dtype.stringD,
             cells := [Cell.str a0, Cell.str a1] },
           { name := "B", dtype := Dtype.stringD, cells := [Cell.str bs, cB1] },
           { name := "C", dtype := Dtype.stringD,
             cells := [Cell.str "", cC1] }] := by
  have hm : List.mapM.loop (astypeCell Dtype.stringD) [Cell.str "", cC1] [] =
      .ok [Cell.str "", cC1] := by
    show List.mapM (astypeCell Dtype.stringD) [Cell.str "", cC1] = _
    rw [List.mapM_cons,
      show astypeCell Dtype.stringD (Cell.str "") = .ok (Cell.str "") from rfl,
      ok_bind_except, List.mapM_cons, hC1, ok_bind_except, List.mapM_nil,
      pure_bind_except, pure_bind_except]
    rfl
  simp [nullifyCol, setCol, hm, alookup, List.find?, Except.map]

theorem c2_nullB (a0 a1 bs : String) (nB : Int) (cB1 cC1' : Cell)
    (hB : pyIntParse bs = some nB) :
    nullifyCol
      [{ name := "RECTYPE", dtype := Dtype.stringD,
         cells := [Cell.str "H", Cell.str "P"] },
       { name := "A", dtype := Dtype.stringD,
         cells := [Cell.str a0, Cell.str a1] },
       { name := "B", dtype := Dtype.stringD, cells := [Cell.str bs, cB1] },
       { name := "C", dtype := Dtype.stringD, cells := [Cell.str "", cC1'] }]
      "P" "B" [("B", Dtype.int64N)] =
      .ok [{ name := "RECTYPE", dtype := Dtype.stringD,
             cells := [Cell.str "H", Cell.str "P"] },
           { name := "A", dtype := Dtype.stringD,
             cells := [Cell.str a0, Cell.str a1] },
           { name := "B", dtype := Dtype.int64N,
             cells := [Cell.int nB, Cell.null] },
           { name := "C", dtype := Dtype.stringD,
             cells := [Cell.str "", cC1'] }] := by
  have hffd : fix_float_dtypes [("B", Dtype.int64N)]
      [{ name := "B", dtype := Dtype.stringD,
         cells := [Cell.str bs, Cell.null] }] = [("B", Dtype.int64N)] := by
    show List.foldl ffdStep _ _ = _
    rw [List.foldl_cons]
    unfold ffdStep
    rw [if_pos (show alookup [("B", Dtype.int64N)]
        ({ name := "B", dtype := Dtype.stringD,
           cells := [Cell.str bs, Cell.null] } : Col).name =
        some Dtype.int64N from rfl)]
    rw [if_pos (show int64CastOk
        ({ name := "B", dtype := Dtype.stringD,
           cells := [Cell.str bs, Cell.null] } : Col).cells = true from by
      simp [int64CastOk, hB])]
    rw [List.foldl_nil]
  have hm : List.mapM.loop (astypeCell Dtype.int64N)
      [Cell.str bs, Cell.null] [] = .ok [Cell.int nB, Cell.null] := by
    show List.mapM (astypeCell Dtype.int64N) [Cell.str bs, Cell.null] = _
    rw [List.mapM_cons,
      show astypeCell Dtype.int64N (Cell.str bs) = .ok (Cell.int nB) from by
        simp [astypeCell, hB],
      ok_bind_except, List.mapM_cons,
      show astypeCell Dtype.int64N Cell.null = .ok Cell.null from rfl,
      ok_bind_except, List.mapM_nil, pure_bind_except, pure_bind_except]
    rfl
  simp [nullifyCol, setCol, hffd, hm, alookup, List.find?, Except.map]

theorem c2_astCommonR (a0 a1 : String) (cB0' cB1' cC0' cC1' : Cell)
    (dB : Dtype) :
    astypeCommonCol
      [{ name := "RECTYPE", dtype := Dtype.stringD,
         cells := [Cell.str "H", Cell.str "P"] },
       { name := "A", dtype := Dtype.stringD,
         cells := [Cell.str a0, Cell.str a1] },
       { name := "B", dtype := dB, cells := [cB0', cB1'] },
       { name := "C", dtype := Dtype.stringD, cells := [cC0', cC1'] }]
      "RECTYPE" [("RECTYPE", Dtype.stringD), ("A", Dtype.stringD)] =
      .ok [{ name := "RECTYPE", dtype := Dtype.stringD,
             cells := [Cell.str "H", Cell.str "P"] },
           { name := "A", dtype := Dtype.stringD,
             cells := [Cell.str a0, Cell.str a1] },
           { name := "B", dtype := dB, cells := [cB0', cB1'] },
           { name := "C", dtype := Dtype.stringD,
             cells := [cC0', cC1'] }] := by
  have hm : List.mapM.loop (astypeCell Dtype.stringD)
      [Cell.str "H", Cell.str "P"] [] = .ok [Cell.str "H", Cell.str "P"] := by
    show List.mapM (astypeCell Dtype.stringD) [Cell.str "H", Cell.str "P"] = _
    rfl
  simp [astypeCommonCol, setCol, hm, alookup, List.find?, Except.map]

theorem c2_astCommonA (a0 a1 : String) (cB0' cB1' cC0' cC1' : Cell)
    (dB : Dtype) :
    astypeCommonCol
      [{ name := "RECTYPE", dtype := Dtype.stringD,
         cells := [Cell.str "H", Cell.str "P"] },
       { name := "A", dtype := Dtype.stringD,
         cells := [Cell.str a0, Cell.str a1] },
       { name := "B", dtype := dB, cells := [cB0', cB1'] },
       { name := "C", dtype := Dtype.stringD, cells := [cC0', cC1'] }]
      "A" [("RECTYPE", Dtype.stringD), ("A", Dtype.stringD)] =
      .ok [{ name := "RECTYPE", dtype := Dtype.stringD,
             cells := [Cell.str "H", Cell.str "P"] },
           { name := "A", dtype := Dtype.stringD,
             cells := [Cell.str a0, Cell.str a1] },
           { name := "B", dtype := dB, cells := [cB0', cB1'] },
           { name := "C", dtype := Dtype.stringD,
             cells := [cC0', cC1'] }] := by
  have hm : List.mapM.loop (astypeCell Dtype.stringD)
      [Cell.str a0, Cell.str a1] [] = .ok [Cell.str a0, Cell.str a1] := by
    show List.mapM (astypeCell Dtype.stringD) [Cell.str a0, Cell.str a1] = _
    rfl
  simp [astypeCommonCol, setCol, hm, alookup, List.find?, Except.map]

theorem c2_astAll (a0 a1 bs : String) (cB1 cC0 cC1 : Cell)
    (hB1 : astypeCell Dtype.stringD cB1 = .ok cB1)
    (hC0 : astypeCell Dtype.stringD cC0 = .ok cC0)
    (hC1 : astypeCell Dtype.stringD cC1 = .ok cC1) :
    astypeFrame
      [("RECTYPE", Dtype.stringD), ("A", Dtype.stringD),
       ("B", Dtype.stringD), ("C", Dtype.stringD)]
      [{ name := "RECTYPE", dtype := Dtype.stringD,
         cells := [Cell.str "H", Cell.str "P"] },
       { name := "A", dtype := Dtype.stringD,
         cells := [Cell.str a0, Cell.str a1] },
       { name := "B", dtype := Dtype.stringD, cells := [Cell.str bs, cB1] },
       { name := "C", dtype := Dtype.stringD, cells := [cC0, cC1] }] =
      .ok [{ name := "RECTYPE", dtype := Dtype.stringD,
             cells := [Cell.str "H", Cell.str "P"] },
           { name := "A", dtype := Dtype.stringD,
             cells := [Cell.str a0, Cell.str a1] },
           { name := "B", dtype := Dtype.stringD, cells := [Cell.str bs, cB1] },
           { name := "C", dtype := Dtype.stringD, cells := [cC0, cC1] }] := by
  refine astypeFrame_cons_some _ _ _ _ _ _ rfl
    (astypeCol_pair _ _ _ _ _ _ _ rfl rfl) ?_
  refine astypeFrame_cons_some _ _ _ _ _ _ rfl
    (astypeCol_pair _ _ _ _ _ _ _ rfl rfl) ?_
  refine astypeFrame_cons_some _ _ _ _ _ _ rfl
    (astypeCol_pair _ _ _ _ _ _ _ rfl hB1) ?_
  refine astypeFrame_cons_some _ _ _ _ _ _ rfl
    (astypeCol_pair _ _ _ _ _ _ _ hC0 hC1) ?_
  exact astypeFrame_nil _

theorem c2_nulling (a0 a1 bs : String) (nB : Int) (cB1 cC0 cC1 : Cell)
    (hB : pyIntParse bs = some nB)
    (hC1 : astypeCell Dtype.stringD cC1 = .ok cC1) :
    hierUnifiedNulling
      [{ name := "RECTYPE", dtype := Dtype.stringD,
         cells := [Cell.str "H", Cell.str "P"] },
       { name := "A", dtype := Dtype.stringD,
         cells := [Cell.str a0, Cell.str a1] },
       { name := "B", dtype := Dtype.stringD, cells := [Cell.str bs, cB1] },
       { name := "C", dtype := Dtype.stringD, cells := [cC0, cC1] }]
      [("H",
        [{ name := "RECTYPE", dtype := Dtype.stringD, cells := [Cell.str "H"] },
         { name := "A", dtype := Dtype.stringD, cells := [Cell.str a0] },
         { name := "B", dtype := Dtype.int64N, cells := [Cell.int nB] }]),
       ("P",
        [{ name := "RECTYPE", dtype := Dtype.stringD, cells := [Cell.str "P"] },
         { name := "A", dtype := Dtype.stringD, cells := [Cell.str a1] },
         { name := "C", dtype := Dtype.stringD, cells := [cC1] }])]
      [vdRectypeHP, vdA2, vdB2, vdC2v] none ["RECTYPE", "A"] =
      .ok [{ name := "RECTYPE", dtype := Dtype.stringD,
             cells := [Cell.str "H", Cell.str "P"] },
           { name := "A", dtype := Dtype.stringD,
             cells := [Cell.str a0, Cell.str a1] },
           { name := "B", dtype := Dtype.int64N,
             cells := [Cell.int nB, Cell.null] },
           { name := "C", dtype := Dtype.stringD,
             cells := [Cell.str "", cC1] }] := by
  have hstep1 := c2_nullC a0 a1 bs cB1 cC0 cC1 hC1
  have hstep2 := c2_nullB a0 a1 bs nB cB1 cC1 hB
  unfold hierUnifiedNulling
  simp [List.foldlM_cons, List.foldlM_nil, pandasMapFor, vdRectypeHP, vdA2,
    vdB2, vdC2v, VariableDescription.pandas_type, hstep1, hstep2]
  rw [ok_bind_except, hstep2]

/-- Claim C2: unified-mode hierarchical decode of an `[H, P]` file over the
two-record-type codebook (RECTYPE and `A` common, `B` owned by `H`, `C` owned
by `P`) yields row 0 with `C` nulled to the empty string, row 1 with `B`
nulled to the integer-dtype missing value, `A` non-null in both rows, and
every column keeping its resolved dtype across the whole table. -/
theorem hierarchical_unified_c2 (l0 l1 vA0 vA1 vC1 : String) (nB : Int)
    (h0R : fieldStr l0 vdRectypeHP = "H") (h1R : fieldStr l1 vdRectypeHP = "P")
    (h0A : fieldStr l0 vdA2 = vA0) (h1A : fieldStr l1 vdA2 = vA1)
    (hA0 : vA0 ≠ "") (hA1 : vA1 ≠ "")
    (h0B : pyIntParse (fieldStr l0 vdB2) = some nB)
    (h1C : fieldStr l1 vdC2v = vC1) :
    read_hierarchical_microdata cbHier none none false [l0, l1] =
      .ok (HierOutput.frame
        [{ name := "RECTYPE", dtype := Dtype.stringD,
           cells := [Cell.str "H", Cell.str "P"] },
         { name := "A", dtype := Dtype.stringD,
           cells := [Cell.str vA0, Cell.str vA1] },
         { name := "B", dtype := Dtype.int64N,
           cells := [Cell.int nB, Cell.null] },
         { name := "C", dtype := Dtype.stringD,
           cells := [Cell.str "", strCellOf vC1] }]) := by
  have hfB0ne : fieldStr l0 vdB2 ≠ "" := by
    intro hh
    rw [hh, show pyIntParse "" = none from rfl] at h0B
    exact Option.noConfusion h0B
  show readHierBody cbHier [vdRectypeHP, vdA2, vdB2, vdC2v] none none false
    [l0, l1] = _
  unfold readHierBody
  rw [if_neg (by decide)]
  dsimp only []
  rw [show get_common_vars [vdRectypeHP, vdA2, vdB2, vdC2v] =
      .ok ["RECTYPE", "A"] from rfl, ok_bind_except]
  rw [show List.filter (fun v => v.name == "RECTYPE")
      [vdRectypeHP, vdA2, vdB2, vdC2v] = [vdRectypeHP] from rfl]
  simp only [pure_bind_except]
  rw [show pySplitSpace vdRectypeHP.rectype = ["H", "P"] from rfl]
  rw [c2_buildDfDict l0 l1 vA0 vA1 vC1 nB h0R h1R h0A h1A hA0 hA1 h0B h1C,
    ok_bind_except]
  rw [if_neg (by decide)]
  rw [show List.map (fun v => (v.name, Dtype.stringD))
      [vdRectypeHP, vdA2, vdB2, vdC2v] =
      [("RECTYPE", Dtype.stringD), ("A", Dtype.stringD),
       ("B", Dtype.stringD), ("C", Dtype.stringD)] from rfl]
  rw [show cbHier.data_description = [vdRectypeHP, vdA2, vdB2, vdC2v] from rfl]
  rw [c2_iterAll l0 l1, ok_bind_except,
    show concatFrames [readFwfStr [vdRectypeHP, vdA2, vdB2, vdC2v] [l0, l1]] =
      readFwfStr [vdRectypeHP, vdA2, vdB2, vdC2v] [l0, l1] from rfl,
    c2_fwfAll l0 l1 vA0 vA1 vC1 h0R h1R h0A h1A hA0 hA1 hfB0ne h1C]
  rw [c2_nulling vA0 vA1 (fieldStr l0 vdB2) nB (strCellOf (fieldStr l1 vdB2))
      (strCellOf (fieldStr l0 vdC2v)) (strCellOf vC1) h0B
      (astypeCell_str_strCellOf vC1),
    ok_bind_except]
  rw [show pandasMapFor [vdRectypeHP, vdA2, vdB2, vdC2v] ["RECTYPE", "A"] =
      [("RECTYPE", Dtype.stringD), ("A", Dtype.stringD)] from rfl]
  rw [List.foldlM_cons,
    c2_astCommonR vA0 vA1 (Cell.int nB) Cell.null (Cell.str "")
      (strCellOf vC1) Dtype.int64N,
    ok_bind_except, List.foldlM_cons,
    c2_astCommonA vA0 vA1 (Cell.int nB) Cell.null (Cell.str "")
      (strCellOf vC1) Dtype.int64N,
    ok_bind_except, List.foldlM_nil, pure_bind_except]
  rfl

theorem hierarchical_unified_c2_witness :
    read_hierarchical_microdata cbHier none none false ["Hxx42  ", "Pyy  cc"] =
      .ok (HierOutput.frame
        [{ name := "RECTYPE", dtype := Dtype.stringD,
           cells := [Cell.str "H", Cell.str "P"] },
         { name := "A", dtype := Dtype.stringD,
           cells := [Cell.str "xx", Cell.str "yy"] },
         { name := "B", dtype := Dtype.int64N,
           cells := [Cell.int 42, Cell.null] },
         { name := "C", dtype := Dtype.stringD,
           cells := [Cell.str "", Cell.str "cc"] }]) := by
  have h := hierarchical_unified_c2 "Hxx42  " "Pyy  cc" "xx" "yy" "cc" 42
    (by decide) (by decide) (by decide) (by decide) (by decide) (by decide)
    (by decide) (by decide)
  rw [h]
  rfl

end Ipumspy
